import Mathlib

/-!
Verification of the chrony command-and-monitoring (C/M) subsystem,
a shallow embedding of `src/cmdmon.c`.

The embedding models the dispatcher `read_from_cmd_socket`, the per-opcode
handlers, the permission table and the access policy as pure Lean functions.
External collaborators (Sources, Manual, Rtc, Smooth, ClientLog, the CIDR
access table, ...) are modelled as oracle fields of an `Env` record: each
oracle returns exactly the result enum the collaborator's contract allows,
and the handler bodies are direct translations of the C bodies.

Conventions:
* Multi-byte wire values are modelled host-order (htons/htonl/ntohs/ntohl are
  byte-order conversions, identities at the level of field values).
* Wire floats are carried as their 32-bit words; no claim depends on the
  float codec, so the codec itself is not modelled.
* Reply payload fields are carried as the host-order report records the
  handlers serialize; byte serialization is out of scope.
* A reply field that the C code never writes (stack garbage in the C struct)
  is modelled as `Option.none` / `ReplyPayload.unset`.

Constants from headers that are not under src/ (candm.h, pktlength.c) are
spec-modelled; each carries a doc comment saying so.
-/

/-! ## Protocol constants -/

/-- Modelled from the spec: candm.h is not under src/.  The daemon's current
protocol version (spec section 6, "Version constant"). -/
def PROTO_VERSION_NUMBER : Nat := 6

/-- Modelled from the spec: candm.h is not under src/.  The compatibility
floor: the lowest caller version that understands a BAD-VERSION reply.  The
spec requires current - 1 to be at or above the floor. -/
def PROTO_VERSION_MISMATCH_COMPAT_SERVER : Nat := 5

/-- Modelled from the spec: candm.h is not under src/.  Packet type of a
request; only distinctness from the reply type matters. -/
def PKT_TYPE_CMD_REQUEST : Nat := 1

/-- Modelled from the spec: candm.h is not under src/.  Packet type of a reply. -/
def PKT_TYPE_CMD_REPLY : Nat := 2

/-- Modelled from the spec: candm.h is not under src/.  Total opcode count.
The permission table in src/cmdmon.c enumerates the opcodes NULL..REFRESH,
54 of them, and `CAM_Initialise` asserts the table has exactly
`N_REQUEST_TYPES` entries. -/
def N_REQUEST_TYPES : Nat := 54

/-- Modelled from the spec: candm.h is not under src/.  Spec section 4.1:
padding length is at most 16 bytes. -/
def MAX_PADDING_LENGTH : Nat := 16

/-- Modelled from the spec: candm.h is not under src/.  Maximum rows per
CLIENT_ACCESSES_BY_INDEX reply page; the spec's paged-reporting scenario
requests 8 rows without clamping, so the maximum is at least 8; the
historical constant is 8. -/
def MAX_CLIENT_ACCESSES : Nat := 8

/-- Modelled from the spec: candm.h is not under src/.  Maximum samples in a
MANUAL_LIST reply. -/
def MAX_MANUAL_LIST_SAMPLES : Nat := 32

/-- Modelled from the spec: candm.h is not under src/.  Byte offset of the
`data` payload union in `CMD_Request` — the size of the request header.  Spec
section 6 fixes the header fields: version(1) + pkt_type(1) + res1(1) +
res2(1) + command(2) + attempt(2) + sequence(4) + utoken(4) + token(4) +
auth(16) = 36. -/
def REQ_data_offset : Nat := 36

/-- Modelled from the spec: candm.h is not under src/.  Byte offset of the
`data` payload union in `CMD_Reply`.  Spec section 6: version(1) +
pkt_type(1) + res1(1) + res2(1) + command(2) + reply(2) + status(2) +
pad1..pad3(6) + sequence(4) + pad4(4) + pad5(4) = 28. -/
def RPY_data_offset : Nat := 28

/-! Status codes (reply `status` field).  Modelled from the spec's status
taxonomy (candm.h is not under src/); the numeric values follow the
historical header, and only their distinctness matters to the claims. -/

def STT_SUCCESS : Nat := 0
def STT_FAILED : Nat := 1
def STT_UNAUTH : Nat := 2
def STT_INVALID : Nat := 3
def STT_NOSUCHSOURCE : Nat := 4
def STT_NOTENABLED : Nat := 6
def STT_BADSUBNET : Nat := 7
def STT_ACCESSALLOWED : Nat := 8
def STT_ACCESSDENIED : Nat := 9
def STT_SOURCEALREADYKNOWN : Nat := 11
def STT_TOOMANYSOURCES : Nat := 12
def STT_NORTC : Nat := 13
def STT_BADRTCFILE : Nat := 14
def STT_INACTIVE : Nat := 15
def STT_BADSAMPLE : Nat := 16
def STT_INVALIDAF : Nat := 17
def STT_BADPKTVERSION : Nat := 18
def STT_BADPKTLENGTH : Nat := 19

/-! Reply variant tags.  Modelled from the spec (candm.h not under src/);
values follow the historical header, only distinctness matters. -/

def RPY_NULL : Nat := 1
def RPY_N_SOURCES : Nat := 2
def RPY_SOURCE_DATA : Nat := 3
def RPY_MANUAL_TIMESTAMP : Nat := 4
def RPY_TRACKING : Nat := 5
def RPY_SOURCESTATS : Nat := 6
def RPY_RTC : Nat := 7
def RPY_CLIENT_ACCESSES_BY_INDEX : Nat := 10
def RPY_MANUAL_LIST : Nat := 11
def RPY_ACTIVITY : Nat := 12
def RPY_SMOOTHING : Nat := 13

/-! Request opcodes referenced by name in the development (the full numbering
0..53 is the order of the permission table's comments in src/cmdmon.c, which
mirrors the candm.h enum). -/

def REQ_NULL : Nat := 0
def REQ_MODIFY_MAXPOLL : Nat := 5
def REQ_LOGON : Nat := 10
def REQ_SETTIME : Nat := 11
def REQ_CMDACCHECK : Nat := 26
def REQ_SUBNETS_ACCESSED : Nat := 38
def REQ_CLIENT_ACCESSES : Nat := 39
def REQ_CLIENT_ACCESSES_BY_INDEX : Nat := 40
def REQ_MODIFY_MINSTRATUM : Nat := 45

/-- Modelled from the spec: ADD_SERVER/ADD_PEER request flag bits (candm.h is
not under src/); values immaterial to the claims. -/
def REQ_ADDSRC_ONLINE : Nat := 1
def REQ_ADDSRC_AUTOOFFLINE : Nat := 2
def REQ_ADDSRC_IBURST : Nat := 4
def REQ_ADDSRC_PREFER : Nat := 8
def REQ_ADDSRC_NOSELECT : Nat := 16

def REQ_SMOOTHTIME_RESET : Nat := 0
def REQ_SMOOTHTIME_ACTIVATE : Nat := 1

def RPY_SMT_FLAG_ACTIVE : Nat := 1
def RPY_SMT_FLAG_LEAPONLY : Nat := 2

/-! ## Addresses, transport origin -/

/-- IPAddr as the dispatcher sees it after UTI_SockaddrToIPAndPort: an
address family tag with address bytes (IPv4 as a 32-bit host-order word,
IPv6 as 16 bytes). -/
inductive IPAddrV where
  | unspec
  | v4 (addr : Nat)
  | v6 (addr : List Nat)
deriving DecidableEq, Repr

def INADDR_LOOPBACK : Nat := 0x7f000001

def in6addr_loopback : List Nat := [0, 0, 0, 0, 0, 0, 0, 0, 0, 0, 0, 0, 0, 0, 0, 1]

/-- The origin of a received datagram: the Unix-domain (filesystem) socket,
or an IP source address on the IPv4/IPv6 socket. -/
inductive Origin where
  | unix
  | ip4 (addr : Nat)
  | ip6 (addr : List Nat)
deriving DecidableEq, Repr

/-- Lines 1204-1225 of src/cmdmon.c: localhost means 127.0.0.1, the IPv6
loopback, or the Unix domain socket. -/
def isLocalhost : Origin → Bool
  | Origin.unix => true
  | Origin.ip4 a => a == INADDR_LOOPBACK
  | Origin.ip6 a => a == in6addr_loopback

/-- The remote_ip handed to the access filter and to ClientLog
(IPADDR_UNSPEC for the Unix domain socket). -/
def originIp : Origin → IPAddrV
  | Origin.unix => IPAddrV.unspec
  | Origin.ip4 a => IPAddrV.v4 a
  | Origin.ip6 a => IPAddrV.v6 a

/-! ## Permission table -/

/-- Permission levels for command types (PERMIT_* in candm.h). -/
inductive Permission where
  | PERMIT_OPEN
  | PERMIT_LOCAL
  | PERMIT_AUTH
deriving DecidableEq, Repr

/-- The static permission table, src/cmdmon.c lines 78-133, one entry per
opcode in opcode order. -/
def permissions : List Permission := [
  Permission.PERMIT_OPEN, -- NULL
  Permission.PERMIT_AUTH, -- ONLINE
  Permission.PERMIT_AUTH, -- OFFLINE
  Permission.PERMIT_AUTH, -- BURST
  Permission.PERMIT_AUTH, -- MODIFY_MINPOLL
  Permission.PERMIT_AUTH, -- MODIFY_MAXPOLL
  Permission.PERMIT_AUTH, -- DUMP
  Permission.PERMIT_AUTH, -- MODIFY_MAXDELAY
  Permission.PERMIT_AUTH, -- MODIFY_MAXDELAYRATIO
  Permission.PERMIT_AUTH, -- MODIFY_MAXUPDATESKEW
  Permission.PERMIT_OPEN, -- LOGON
  Permission.PERMIT_AUTH, -- SETTIME
  Permission.PERMIT_AUTH, -- LOCAL
  Permission.PERMIT_AUTH, -- MANUAL
  Permission.PERMIT_OPEN, -- N_SOURCES
  Permission.PERMIT_OPEN, -- SOURCE_DATA
  Permission.PERMIT_AUTH, -- REKEY
  Permission.PERMIT_AUTH, -- ALLOW
  Permission.PERMIT_AUTH, -- ALLOWALL
  Permission.PERMIT_AUTH, -- DENY
  Permission.PERMIT_AUTH, -- DENYALL
  Permission.PERMIT_AUTH, -- CMDALLOW
  Permission.PERMIT_AUTH, -- CMDALLOWALL
  Permission.PERMIT_AUTH, -- CMDDENY
  Permission.PERMIT_AUTH, -- CMDDENYALL
  Permission.PERMIT_AUTH, -- ACCHECK
  Permission.PERMIT_AUTH, -- CMDACCHECK
  Permission.PERMIT_AUTH, -- ADD_SERVER
  Permission.PERMIT_AUTH, -- ADD_PEER
  Permission.PERMIT_AUTH, -- DEL_SOURCE
  Permission.PERMIT_AUTH, -- WRITERTC
  Permission.PERMIT_AUTH, -- DFREQ
  Permission.PERMIT_AUTH, -- DOFFSET
  Permission.PERMIT_OPEN, -- TRACKING
  Permission.PERMIT_OPEN, -- SOURCESTATS
  Permission.PERMIT_OPEN, -- RTCREPORT
  Permission.PERMIT_AUTH, -- TRIMRTC
  Permission.PERMIT_AUTH, -- CYCLELOGS
  Permission.PERMIT_AUTH, -- SUBNETS_ACCESSED
  Permission.PERMIT_AUTH, -- CLIENT_ACCESSES (by subnet)
  Permission.PERMIT_AUTH, -- CLIENT_ACCESSES_BY_INDEX
  Permission.PERMIT_OPEN, -- MANUAL_LIST
  Permission.PERMIT_AUTH, -- MANUAL_DELETE
  Permission.PERMIT_AUTH, -- MAKESTEP
  Permission.PERMIT_OPEN, -- ACTIVITY
  Permission.PERMIT_AUTH, -- MODIFY_MINSTRATUM
  Permission.PERMIT_AUTH, -- MODIFY_POLLTARGET
  Permission.PERMIT_AUTH, -- MODIFY_MAXDELAYDEVRATIO
  Permission.PERMIT_AUTH, -- RESELECT
  Permission.PERMIT_AUTH, -- RESELECTDISTANCE
  Permission.PERMIT_AUTH, -- MODIFY_MAKESTEP
  Permission.PERMIT_OPEN, -- SMOOTHING
  Permission.PERMIT_AUTH, -- SMOOTHTIME
  Permission.PERMIT_AUTH  -- REFRESH
]

/-! ## Wire-length codec (pktlength.c is not under src/) -/

/-- Modelled from the spec: per-opcode request payload sizes (pktlength.c
and candm.h are not under src/).  Each opcode's payload is the fields of its
request variant — the fields the handlers in src/cmdmon.c read — at the wire
sizes of the spec's numeric conventions (section 4.1/6): an IP address is 20
bytes (16 address bytes, a 2-byte family tag, 2 bytes padding), a timestamp
8 bytes, a coded float 4 bytes, an integer 4 bytes.  The two legacy opcodes
SUBNETS_ACCESSED (38) and CLIENT_ACCESSES (39), which the handler inventory
of spec section 4.5 omits and the dispatch switch has no case for, carry no
request variant at all (their whole wire length is 0, see
`pklCommandLength`). -/
def requestPayloadLength : Nat → Nat
  | 0 => 0   -- NULL
  | 1 => 40  -- ONLINE: mask + address
  | 2 => 40  -- OFFLINE: mask + address
  | 3 => 48  -- BURST: mask + address + n_good_samples + n_total_samples
  | 4 => 24  -- MODIFY_MINPOLL: address + new_minpoll
  | 5 => 24  -- MODIFY_MAXPOLL: address + new_maxpoll
  | 6 => 0   -- DUMP
  | 7 => 24  -- MODIFY_MAXDELAY: address + float
  | 8 => 24  -- MODIFY_MAXDELAYRATIO: address + float
  | 9 => 4   -- MODIFY_MAXUPDATESKEW: float
  | 10 => 0  -- LOGON (legacy; header-only)
  | 11 => 8  -- SETTIME: timestamp
  | 12 => 8  -- LOCAL: on_off + stratum
  | 13 => 4  -- MANUAL: option
  | 14 => 0  -- N_SOURCES
  | 15 => 4  -- SOURCE_DATA: index
  | 16 => 0  -- REKEY
  | 17 => 24 -- ALLOW: ip + subnet_bits
  | 18 => 24 -- ALLOWALL
  | 19 => 24 -- DENY
  | 20 => 24 -- DENYALL
  | 21 => 24 -- CMDALLOW
  | 22 => 24 -- CMDALLOWALL
  | 23 => 24 -- CMDDENY
  | 24 => 24 -- CMDDENYALL
  | 25 => 20 -- ACCHECK: ip
  | 26 => 20 -- CMDACCHECK: ip
  | 27 => 52 -- ADD_SERVER: ip + port + 5 integers + 2 floats
  | 28 => 52 -- ADD_PEER
  | 29 => 20 -- DEL_SOURCE: ip
  | 30 => 0  -- WRITERTC
  | 31 => 4  -- DFREQ: float
  | 32 => 8  -- DOFFSET: sec + usec
  | 33 => 0  -- TRACKING
  | 34 => 4  -- SOURCESTATS: index
  | 35 => 0  -- RTCREPORT
  | 36 => 0  -- TRIMRTC
  | 37 => 0  -- CYCLELOGS
  | 40 => 8  -- CLIENT_ACCESSES_BY_INDEX: first_index + n_indices
  | 41 => 0  -- MANUAL_LIST
  | 42 => 4  -- MANUAL_DELETE: index
  | 43 => 0  -- MAKESTEP
  | 44 => 0  -- ACTIVITY
  | 45 => 24 -- MODIFY_MINSTRATUM: address + new_min_stratum
  | 46 => 24 -- MODIFY_POLLTARGET: address + new_poll_target
  | 47 => 24 -- MODIFY_MAXDELAYDEVRATIO: address + float
  | 48 => 0  -- RESELECT
  | 49 => 4  -- RESELECTDISTANCE: float
  | 50 => 8  -- MODIFY_MAKESTEP: limit + threshold
  | 51 => 0  -- SMOOTHING
  | 52 => 4  -- SMOOTHTIME: option
  | _ => 0   -- 38, 39 (no variant) and out-of-range; 53 REFRESH has no payload

/-- Modelled from the spec: `PKL_CommandLength` lives in pktlength.c, which
is not under src/.  Spec sections 2 and 4.4: the expected length of a request
is computed from its opcode, the header plus the opcode's payload
(`requestPayloadLength`).  Spec section 8 allows an opcode's wire length to
be 0 or at least the header size; the two legacy opcodes that the handler
inventory of spec section 4.5 omits and that the dispatch switch in
src/cmdmon.c has no case for (SUBNETS_ACCESSED, CLIENT_ACCESSES) are
modelled with wire length 0, so the header-sanity step drops such packets
before dispatch.  For an out-of-range opcode the model returns the
request-header size so that the dispatcher's own opcode-bound check (spec
section 4.4 step 6, src/cmdmon.c line 1286) is the step that rejects such
packets, as the spec describes. -/
def pklCommandLength (cmd : Nat) : Nat :=
  if cmd = REQ_SUBNETS_ACCESSED || cmd = REQ_CLIENT_ACCESSES then 0
  else if cmd < N_REQUEST_TYPES then REQ_data_offset + requestPayloadLength cmd
  else REQ_data_offset

/-- Modelled from the spec: `PKL_CommandPaddingLength` lives in pktlength.c,
which is not under src/.  The spec bounds padding by 16 bytes and by the
command length but fixes no per-opcode values; no claim observes a
particular padding, so the model uses 0 throughout. -/
def pklCommandPaddingLength (_cmd : Nat) : Nat := 0

/-! ## Request and reply packets -/

/-- A (seconds, microseconds) timestamp. -/
structure TimevalV where
  tv_sec : Nat := 0
  tv_usec : Nat := 0
deriving DecidableEq, Repr

/-- The request payload union (`CMD_Request.data`).  In C this is a union:
every variant overlays the same bytes.  Variants whose layout the claims do
not observe get fields of their own; the MODIFY_MINPOLL / MODIFY_MAXPOLL /
MODIFY_MAXDELAY / MODIFY_MAXDELAYRATIO / MODIFY_MAXDELAYDEVRATIO /
MODIFY_MINSTRATUM / MODIFY_POLLTARGET family is modelled by its shared
layout — modelled from the spec (candm.h is not under src/): each of these
variants is an IPAddr `address` first, then one 32-bit value, so in the
union all their `address` fields (and all their value fields) alias; spec
section 9 describes the historical code as "aliasing the first union
field". -/
structure RequestData where
  online_mask : IPAddrV := IPAddrV.unspec
  online_address : IPAddrV := IPAddrV.unspec
  offline_mask : IPAddrV := IPAddrV.unspec
  offline_address : IPAddrV := IPAddrV.unspec
  burst_mask : IPAddrV := IPAddrV.unspec
  burst_address : IPAddrV := IPAddrV.unspec
  burst_n_good_samples : Nat := 0
  burst_n_total_samples : Nat := 0
  -- shared storage of the modify-by-address family (see above)
  modify_address : IPAddrV := IPAddrV.unspec
  modify_value : Nat := 0
  modify_maxupdateskew_new_max_update_skew : Nat := 0
  modify_makestep_limit : Nat := 0
  modify_makestep_threshold : Nat := 0
  settime_ts : TimevalV := {}
  local_on_off : Nat := 0
  local_stratum : Nat := 0
  manual_option : Nat := 0
  source_data_index : Nat := 0
  sourcestats_index : Nat := 0
  allow_deny_ip : IPAddrV := IPAddrV.unspec
  allow_deny_subnet_bits : Nat := 0
  ac_check_ip : IPAddrV := IPAddrV.unspec
  ntp_source_ip_addr : IPAddrV := IPAddrV.unspec
  ntp_source_port : Nat := 0
  ntp_source_minpoll : Nat := 0
  ntp_source_maxpoll : Nat := 0
  ntp_source_presend_minpoll : Nat := 0
  ntp_source_authkey : Nat := 0
  ntp_source_flags : Nat := 0
  ntp_source_max_delay : Nat := 0
  ntp_source_max_delay_r : Nat := 0
  del_source_ip_addr : IPAddrV := IPAddrV.unspec
  dfreq_word : Nat := 0
  doffset_sec : Nat := 0
  doffset_usec : Nat := 0
  smoothtime_option : Nat := 0
  client_accesses_by_index_first_index : Nat := 0
  client_accesses_by_index_n_indices : Nat := 0
  manual_delete_index : Nat := 0
  reselect_distance_word : Nat := 0
deriving DecidableEq, Repr

/-- The request header and payload (`CMD_Request`).  The legacy utoken,
token and auth fields remain on the wire for size compatibility and are
ignored; they are carried but never read. -/
structure CMD_Request where
  version : Nat
  pkt_type : Nat
  res1 : Nat := 0
  res2 : Nat := 0
  command : Nat
  attempt : Nat := 0
  sequence : Nat := 0
  utoken : Nat := 0
  token : Nat := 0
  data : RequestData := {}
deriving DecidableEq, Repr

/-! Accessors named after the C union fields the handlers read.  In the C
union all the modify-family variants place `address` at offset 0 and their
32-bit value right after it, so the accessors of different variants
coincide on the shared storage. -/

def CMD_Request.modify_minpoll_address (rx : CMD_Request) : IPAddrV :=
  rx.data.modify_address

def CMD_Request.modify_minpoll_new_minpoll (rx : CMD_Request) : Nat :=
  rx.data.modify_value

def CMD_Request.modify_maxpoll_address (rx : CMD_Request) : IPAddrV :=
  rx.data.modify_address

def CMD_Request.modify_maxpoll_new_maxpoll (rx : CMD_Request) : Nat :=
  rx.data.modify_value

def CMD_Request.modify_maxdelay_address (rx : CMD_Request) : IPAddrV :=
  rx.data.modify_address

def CMD_Request.modify_maxdelay_new_max_delay (rx : CMD_Request) : Nat :=
  rx.data.modify_value

def CMD_Request.modify_minstratum_address (rx : CMD_Request) : IPAddrV :=
  rx.data.modify_address

def CMD_Request.modify_minstratum_new_min_stratum (rx : CMD_Request) : Nat :=
  rx.data.modify_value

def CMD_Request.modify_polltarget_address (rx : CMD_Request) : IPAddrV :=
  rx.data.modify_address

def CMD_Request.modify_polltarget_new_poll_target (rx : CMD_Request) : Nat :=
  rx.data.modify_value

/-! ## Collaborator result enums and reports -/

inductive NSR_Status where
  | NSR_Success
  | NSR_NoSuchSource
  | NSR_AlreadyInUse
  | NSR_TooManySources
  | NSR_InvalidAF
deriving DecidableEq, Repr

inductive NTP_Source_Type where
  | NTP_SERVER
  | NTP_PEER
deriving DecidableEq, Repr

inductive RTC_Status where
  | RTC_ST_OK
  | RTC_ST_NODRV
  | RTC_ST_BADFILE
deriving DecidableEq, Repr

inductive ADF_Status where
  | ADF_SUCCESS
  | ADF_BADSUBNET
deriving DecidableEq, Repr

/-- Modelled from the spec: clientlog.h is not under src/.  The paged
reporting contract of spec section 4.5 has exactly three outcomes per
index. -/
inductive CLG_Status where
  | CLG_SUCCESS
  | CLG_INDEXTOOLARGE
  | CLG_INACTIVE
deriving DecidableEq, Repr

structure NTP_Remote_Address where
  ip_addr : IPAddrV := IPAddrV.unspec
  port : Nat := 0
deriving DecidableEq, Repr

/-- Source parameters bundle passed to NSR_AddSource.  Wire floats are
carried as 32-bit words. -/
structure SourceParameters where
  minpoll : Nat := 0
  maxpoll : Nat := 0
  presend_minpoll : Nat := 0
  authkey : Nat := 0
  online : Bool := false
  auto_offline : Bool := false
  iburst : Bool := false
  sel_option : Nat := 0
  max_delay : Nat := 0
  max_delay_r : Nat := 0
  min_stratum : Nat := 0
  poll_target : Nat := 0
  max_delay_dev_r : Nat := 0
  version : Nat := 0
  max_sources : Nat := 0
  min_samples : Nat := 0
  max_samples : Nat := 0
deriving DecidableEq, Repr

/-- Modelled from the spec: defaults for parameters the cmdmon protocol does
not transmit (sources.h is not under src/; the values are immaterial to
every claim). -/
def SRC_DEFAULT_MINSTRATUM : Nat := 0
def SRC_DEFAULT_POLLTARGET : Nat := 8
def SRC_DEFAULT_MAXDELAYDEVR : Nat := 0
def NTP_VERSION : Nat := 4
def SRC_DEFAULT_MAXSOURCES : Nat := 4
def SRC_DEFAULT_MINSAMPLES : Nat := 0
def SRC_DEFAULT_MAXSAMPLES : Nat := 0

def SRC_SelectNormal : Nat := 0
def SRC_SelectPrefer : Nat := 1
def SRC_SelectNoselect : Nat := 2

structure RPT_SourceReport where
  ip_addr : IPAddrV := IPAddrV.unspec
  stratum : Nat := 0
  poll : Nat := 0
  state : Nat := 0
  mode : Nat := 0
  flags : Nat := 0
  reachability : Nat := 0
  latest_meas_ago : Nat := 0
  orig_latest_meas : Nat := 0
  latest_meas : Nat := 0
  latest_meas_err : Nat := 0
deriving DecidableEq, Repr

structure RPT_TrackingReport where
  ref_id : Nat := 0
  ip_addr : IPAddrV := IPAddrV.unspec
  stratum : Nat := 0
  leap_status : Nat := 0
  ref_time : TimevalV := {}
  current_correction : Nat := 0
  last_offset : Nat := 0
  rms_offset : Nat := 0
  freq_ppm : Nat := 0
  resid_freq_ppm : Nat := 0
  skew_ppm : Nat := 0
  root_delay : Nat := 0
  root_dispersion : Nat := 0
  last_update_interval : Nat := 0
deriving DecidableEq, Repr

structure RPT_SourcestatsReport where
  ref_id : Nat := 0
  ip_addr : IPAddrV := IPAddrV.unspec
  n_samples : Nat := 0
  n_runs : Nat := 0
  span_seconds : Nat := 0
  resid_freq_ppm : Nat := 0
  skew_ppm : Nat := 0
  sd : Nat := 0
  est_offset : Nat := 0
  est_offset_err : Nat := 0
deriving DecidableEq, Repr

structure RPT_RTC_Report where
  ref_time : TimevalV := {}
  n_samples : Nat := 0
  n_runs : Nat := 0
  span_seconds : Nat := 0
  rtc_seconds_fast : Nat := 0
  rtc_gain_rate_ppm : Nat := 0
deriving DecidableEq, Repr

structure RPT_SmoothingReport where
  active : Bool := false
  leap_only : Bool := false
  offset : Nat := 0
  freq_ppm : Nat := 0
  wander_ppm : Nat := 0
  last_update_ago : Nat := 0
  remaining_time : Nat := 0
deriving DecidableEq, Repr

structure RPT_ActivityReport where
  online : Nat := 0
  offline : Nat := 0
  burst_online : Nat := 0
  burst_offline : Nat := 0
  unresolved : Nat := 0
deriving DecidableEq, Repr

structure RPT_ManualSamplesReport where
  when_ts : TimevalV := {}
  slewed_offset : Nat := 0
  orig_offset : Nat := 0
  residual : Nat := 0
deriving DecidableEq, Repr

/-- A client-accesses-by-index report row (ClientLog collaborator). -/
structure RPT_ClientAccessByIndex_Report where
  ip_addr : IPAddrV := IPAddrV.unspec
  client_hits : Nat := 0
  peer_hits : Nat := 0
  cmd_hits_auth : Nat := 0
  cmd_hits_normal : Nat := 0
  cmd_hits_bad : Nat := 0
  last_ntp_hit_ago : Nat := 0
  last_cmd_hit_ago : Nat := 0
deriving DecidableEq, Repr

/-- A packed row of the CLIENT_ACCESSES_BY_INDEX reply. -/
structure CAIXClient where
  ip : IPAddrV := IPAddrV.unspec
  client_hits : Nat := 0
  peer_hits : Nat := 0
  cmd_hits_auth : Nat := 0
  cmd_hits_normal : Nat := 0
  cmd_hits_bad : Nat := 0
  last_ntp_hit_ago : Nat := 0
  last_cmd_hit_ago : Nat := 0
deriving DecidableEq, Repr

/-- The CLIENT_ACCESSES_BY_INDEX reply payload.  `none` models a field the C
code has not written (stack garbage in the C struct). -/
structure CAIXPage where
  n_indices : Option Nat := none
  next_index : Option Nat := none
  n_clients : Option Nat := none
  clients : List CAIXClient := []
deriving DecidableEq, Repr

/-- The reply payload union, as the tagged value the handler serialized.
`unset` models a payload the handler never wrote. -/
inductive ReplyPayload where
  | unset
  | manual_timestamp (centiseconds : Nat) (dfreq_ppm : Nat) (new_afreq_ppm : Nat)
  | n_sources (n : Nat)
  | source_data (r : RPT_SourceReport)
  | tracking (r : RPT_TrackingReport)
  | sourcestats (r : RPT_SourcestatsReport)
  | rtc (r : RPT_RTC_Report)
  | smoothing (flags : Nat) (r : RPT_SmoothingReport)
  | client_accesses_by_index (p : CAIXPage)
  | manual_list (n : Nat) (samples : List RPT_ManualSamplesReport)
  | activity (r : RPT_ActivityReport)
deriving DecidableEq, Repr

/-- The reply header and payload (`CMD_Reply`). -/
structure CMD_Reply where
  version : Nat
  pkt_type : Nat
  res1 : Nat
  res2 : Nat
  command : Nat
  reply : Nat
  status : Nat
  pad1 : Nat
  pad2 : Nat
  pad3 : Nat
  sequence : Nat
  pad4 : Nat
  pad5 : Nat
  data : ReplyPayload
deriving DecidableEq, Repr

/-! ## Environment: external collaborators as oracles -/

/-- The external collaborators, as oracles returning exactly the results
their contracts (spec section 6) allow.  `adfAllowed` is ADF_IsAllowed on
the C/M access table `access_auth_table`: it is consulted by the
dispatcher's access filter and, for the CMDACCHECK opcode, by
`CAM_CheckAccessRestriction`. -/
structure Env where
  adfAllowed : IPAddrV → Bool
  adfAdd : Bool → Bool → IPAddrV → Nat → ADF_Status
  ncrAddAccessRestriction : IPAddrV → Nat → Bool → Bool → Bool
  ncrCheckAccessRestriction : IPAddrV → Bool
  nsrTakeSourcesOnline : IPAddrV → IPAddrV → Bool
  nsrTakeSourcesOffline : IPAddrV → IPAddrV → Bool
  nsrInitiateSampleBurst : Nat → Nat → IPAddrV → IPAddrV → Bool
  nsrModifyMinpoll : IPAddrV → Nat → Bool
  nsrModifyMaxpoll : IPAddrV → Nat → Bool
  nsrModifyMaxdelay : IPAddrV → Nat → Bool
  nsrModifyMaxdelayR : IPAddrV → Nat → Bool
  nsrModifyMaxdelayDevR : IPAddrV → Nat → Bool
  nsrModifyMinstratum : IPAddrV → Nat → Bool
  nsrModifyPolltarget : IPAddrV → Nat → Bool
  nsrAddSource : NTP_Source_Type → NTP_Remote_Address → SourceParameters → NSR_Status
  nsrRemoveSource : NTP_Remote_Address → NSR_Status
  nsrActivityReport : RPT_ActivityReport
  srcReadNumberOfSources : Nat
  srcReportSource : Nat → Nat → Option RPT_SourceReport
  srcReportSourcestats : Nat → Nat → Option RPT_SourcestatsReport
  refTrackingReport : RPT_TrackingReport
  rtcWriteParameters : RTC_Status
  rtcGetReport : Option RPT_RTC_Report
  rtcTrim : Bool
  lclMakeStep : Bool
  mnlIsEnabled : Bool
  mnlAcceptTimestamp : TimevalV → Option (Nat × Nat × Nat)
  mnlReportSamples : List RPT_ManualSamplesReport
  mnlDeleteSample : Nat → Bool
  smtIsEnabled : Bool
  smtGetSmoothingReport : Nat → Option RPT_SmoothingReport
  clgGetClientAccessReportByIndex :
    Nat → Nat → CLG_Status × RPT_ClientAccessByIndex_Report × Nat
  schLastEventTime : TimevalV

/-! ## Handlers (src/cmdmon.c lines 383-1151) -/

def handle_dump (_e : Env) (_rx : CMD_Request) (tx : CMD_Reply) : CMD_Reply :=
  tx

def handle_online (e : Env) (rx : CMD_Request) (tx : CMD_Reply) : CMD_Reply :=
  if e.nsrTakeSourcesOnline rx.data.online_mask rx.data.online_address then tx
  else { tx with status := STT_NOSUCHSOURCE }

def handle_offline (e : Env) (rx : CMD_Request) (tx : CMD_Reply) : CMD_Reply :=
  if e.nsrTakeSourcesOffline rx.data.offline_mask rx.data.offline_address then tx
  else { tx with status := STT_NOSUCHSOURCE }

def handle_burst (e : Env) (rx : CMD_Request) (tx : CMD_Reply) : CMD_Reply :=
  if e.nsrInitiateSampleBurst rx.data.burst_n_good_samples
       rx.data.burst_n_total_samples rx.data.burst_mask rx.data.burst_address then tx
  else { tx with status := STT_NOSUCHSOURCE }

def handle_modify_minpoll (e : Env) (rx : CMD_Request) (tx : CMD_Reply) : CMD_Reply :=
  if e.nsrModifyMinpoll rx.modify_minpoll_address rx.modify_minpoll_new_minpoll then tx
  else { tx with status := STT_NOSUCHSOURCE }

/-- Source lines 445-454: the C body reads `modify_minpoll.address` and
`modify_minpoll.new_minpoll` (not the maxpoll variant's own field names). -/
def handle_modify_maxpoll (e : Env) (rx : CMD_Request) (tx : CMD_Reply) : CMD_Reply :=
  if e.nsrModifyMaxpoll rx.modify_minpoll_address rx.modify_minpoll_new_minpoll then tx
  else { tx with status := STT_NOSUCHSOURCE }

def handle_modify_maxdelay (e : Env) (rx : CMD_Request) (tx : CMD_Reply) : CMD_Reply :=
  if e.nsrModifyMaxdelay rx.modify_maxdelay_address rx.modify_maxdelay_new_max_delay then tx
  else { tx with status := STT_NOSUCHSOURCE }

def handle_modify_maxdelayratio (e : Env) (rx : CMD_Request) (tx : CMD_Reply) : CMD_Reply :=
  if e.nsrModifyMaxdelayR rx.data.modify_address rx.data.modify_value then tx
  else { tx with status := STT_NOSUCHSOURCE }

def handle_modify_maxdelaydevratio (e : Env) (rx : CMD_Request) (tx : CMD_Reply) : CMD_Reply :=
  if e.nsrModifyMaxdelayDevR rx.data.modify_address rx.data.modify_value then tx
  else { tx with status := STT_NOSUCHSOURCE }

/-- Source lines 497-506: the C body reads `modify_minpoll.address` but
`modify_minstratum.new_min_stratum`. -/
def handle_modify_minstratum (e : Env) (rx : CMD_Request) (tx : CMD_Reply) : CMD_Reply :=
  if e.nsrModifyMinstratum rx.modify_minpoll_address rx.modify_minstratum_new_min_stratum
  then tx
  else { tx with status := STT_NOSUCHSOURCE }

def handle_modify_polltarget (e : Env) (rx : CMD_Request) (tx : CMD_Reply) : CMD_Reply :=
  if e.nsrModifyPolltarget rx.modify_polltarget_address rx.modify_polltarget_new_poll_target
  then tx
  else { tx with status := STT_NOSUCHSOURCE }

def handle_modify_maxupdateskew (_e : Env) (_rx : CMD_Request) (tx : CMD_Reply) :
    CMD_Reply :=
  tx

def handle_modify_makestep (_e : Env) (_rx : CMD_Request) (tx : CMD_Reply) : CMD_Reply :=
  tx

def handle_settime (e : Env) (rx : CMD_Request) (tx : CMD_Reply) : CMD_Reply :=
  let ts := rx.data.settime_ts
  if ¬ e.mnlIsEnabled then { tx with status := STT_NOTENABLED }
  else
    match e.mnlAcceptTimestamp ts with
    | some (offset_cs, dfreq_ppm, new_afreq_ppm) =>
      { tx with reply := RPY_MANUAL_TIMESTAMP,
                data := ReplyPayload.manual_timestamp offset_cs dfreq_ppm new_afreq_ppm }
    | none => { tx with status := STT_FAILED }

def handle_local (_e : Env) (rx : CMD_Request) (tx : CMD_Reply) : CMD_Reply :=
  let on_off := rx.data.local_on_off
  if on_off ≠ 0 then tx else tx

def handle_manual (_e : Env) (rx : CMD_Request) (tx : CMD_Reply) : CMD_Reply :=
  let option := rx.data.manual_option
  match option with
  | 0 => tx
  | 1 => tx
  | 2 => tx
  | _ => { tx with status := STT_INVALID }

def handle_n_sources (e : Env) (_rx : CMD_Request) (tx : CMD_Reply) : CMD_Reply :=
  { tx with reply := RPY_N_SOURCES,
            data := ReplyPayload.n_sources e.srcReadNumberOfSources }

def handle_source_data (e : Env) (rx : CMD_Request) (tx : CMD_Reply) : CMD_Reply :=
  let now_corr := e.schLastEventTime
  match e.srcReportSource rx.data.source_data_index now_corr.tv_sec with
  | some report =>
    { tx with reply := RPY_SOURCE_DATA, data := ReplyPayload.source_data report }
  | none => { tx with status := STT_NOSUCHSOURCE }

def handle_rekey (_e : Env) (_rx : CMD_Request) (tx : CMD_Reply) : CMD_Reply :=
  tx

def handle_allowdeny (e : Env) (rx : CMD_Request) (tx : CMD_Reply)
    (allow : Bool) (all : Bool) : CMD_Reply :=
  let ip := rx.data.allow_deny_ip
  let subnet_bits := rx.data.allow_deny_subnet_bits
  if ¬ e.ncrAddAccessRestriction ip subnet_bits allow all then
    { tx with status := STT_BADSUBNET }
  else tx

/-- CAM_AddAccessRestriction, src/cmdmon.c lines 1577-1603. -/
def CAM_AddAccessRestriction (e : Env) (ip_addr : IPAddrV) (subnet_bits : Nat)
    (allow : Bool) (all : Bool) : Bool :=
  let status := e.adfAdd allow all ip_addr subnet_bits
  match status with
  | ADF_Status.ADF_BADSUBNET => false
  | ADF_Status.ADF_SUCCESS => true

def handle_cmdallowdeny (e : Env) (rx : CMD_Request) (tx : CMD_Reply)
    (allow : Bool) (all : Bool) : CMD_Reply :=
  let ip := rx.data.allow_deny_ip
  let subnet_bits := rx.data.allow_deny_subnet_bits
  if ¬ CAM_AddAccessRestriction e ip subnet_bits allow all then
    { tx with status := STT_BADSUBNET }
  else tx

def handle_accheck (e : Env) (rx : CMD_Request) (tx : CMD_Reply) : CMD_Reply :=
  if e.ncrCheckAccessRestriction rx.data.ac_check_ip then
    { tx with status := STT_ACCESSALLOWED }
  else
    { tx with status := STT_ACCESSDENIED }

/-- CAM_CheckAccessRestriction, src/cmdmon.c lines 1607-1611: a query of the
same `access_auth_table` the dispatcher's access filter consults. -/
def CAM_CheckAccessRestriction (e : Env) (ip_addr : IPAddrV) : Bool :=
  e.adfAllowed ip_addr

def handle_cmdaccheck (e : Env) (rx : CMD_Request) (tx : CMD_Reply) : CMD_Reply :=
  if CAM_CheckAccessRestriction e rx.data.ac_check_ip then
    { tx with status := STT_ACCESSALLOWED }
  else
    { tx with status := STT_ACCESSDENIED }

/-- The `switch (status)` of handle_add_source, src/cmdmon.c lines 782-797.
The NSR_NoSuchSource arm is `assert(0)` in the source: modelled as `none`
(process abort). -/
def addSourceStatusReply (status : NSR_Status) (tx : CMD_Reply) : Option CMD_Reply :=
  match status with
  | NSR_Status.NSR_Success => some tx
  | NSR_Status.NSR_AlreadyInUse => some { tx with status := STT_SOURCEALREADYKNOWN }
  | NSR_Status.NSR_TooManySources => some { tx with status := STT_TOOMANYSOURCES }
  | NSR_Status.NSR_InvalidAF => some { tx with status := STT_INVALIDAF }
  | NSR_Status.NSR_NoSuchSource => none

/-- handle_add_source, src/cmdmon.c lines 751-798. -/
def handle_add_source (type : NTP_Source_Type) (e : Env) (rx : CMD_Request)
    (tx : CMD_Reply) : Option CMD_Reply :=
  let rem_addr : NTP_Remote_Address :=
    { ip_addr := rx.data.ntp_source_ip_addr, port := rx.data.ntp_source_port % 65536 }
  let flags := rx.data.ntp_source_flags
  let params : SourceParameters :=
    { minpoll := rx.data.ntp_source_minpoll,
      maxpoll := rx.data.ntp_source_maxpoll,
      presend_minpoll := rx.data.ntp_source_presend_minpoll,
      authkey := rx.data.ntp_source_authkey,
      online := flags &&& REQ_ADDSRC_ONLINE ≠ 0,
      auto_offline := flags &&& REQ_ADDSRC_AUTOOFFLINE ≠ 0,
      iburst := flags &&& REQ_ADDSRC_IBURST ≠ 0,
      sel_option :=
        if flags &&& REQ_ADDSRC_PREFER ≠ 0 then SRC_SelectPrefer
        else if flags &&& REQ_ADDSRC_NOSELECT ≠ 0 then SRC_SelectNoselect
        else SRC_SelectNormal,
      max_delay := rx.data.ntp_source_max_delay,
      max_delay_r := rx.data.ntp_source_max_delay_r,
      min_stratum := SRC_DEFAULT_MINSTRATUM,
      poll_target := SRC_DEFAULT_POLLTARGET,
      max_delay_dev_r := SRC_DEFAULT_MAXDELAYDEVR,
      version := NTP_VERSION,
      max_sources := SRC_DEFAULT_MAXSOURCES,
      min_samples := SRC_DEFAULT_MINSAMPLES,
      max_samples := SRC_DEFAULT_MAXSAMPLES }
  addSourceStatusReply (e.nsrAddSource type rem_addr params) tx

/-- The `switch (status)` of handle_del_source, src/cmdmon.c lines 812-823.
The TooManySources / AlreadyInUse / InvalidAF arms are `assert(0)`:
modelled as `none` (process abort). -/
def delSourceStatusReply (status : NSR_Status) (tx : CMD_Reply) : Option CMD_Reply :=
  match status with
  | NSR_Status.NSR_Success => some tx
  | NSR_Status.NSR_NoSuchSource => some { tx with status := STT_NOSUCHSOURCE }
  | NSR_Status.NSR_TooManySources => none
  | NSR_Status.NSR_AlreadyInUse => none
  | NSR_Status.NSR_InvalidAF => none

/-- handle_del_source, src/cmdmon.c lines 802-824. -/
def handle_del_source (e : Env) (rx : CMD_Request) (tx : CMD_Reply) :
    Option CMD_Reply :=
  let rem_addr : NTP_Remote_Address :=
    { ip_addr := rx.data.del_source_ip_addr, port := 0 }
  delSourceStatusReply (e.nsrRemoveSource rem_addr) tx

def handle_writertc (e : Env) (_rx : CMD_Request) (tx : CMD_Reply) : CMD_Reply :=
  match e.rtcWriteParameters with
  | RTC_Status.RTC_ST_OK => tx
  | RTC_Status.RTC_ST_NODRV => { tx with status := STT_NORTC }
  | RTC_Status.RTC_ST_BADFILE => { tx with status := STT_BADRTCFILE }

def handle_dfreq (_e : Env) (_rx : CMD_Request) (tx : CMD_Reply) : CMD_Reply :=
  tx

def handle_doffset (_e : Env) (_rx : CMD_Request) (tx : CMD_Reply) : CMD_Reply :=
  tx

def handle_tracking (e : Env) (_rx : CMD_Request) (tx : CMD_Reply) : CMD_Reply :=
  { tx with reply := RPY_TRACKING, data := ReplyPayload.tracking e.refTrackingReport }

def handle_smoothing (e : Env) (_rx : CMD_Request) (tx : CMD_Reply) : CMD_Reply :=
  let now := e.schLastEventTime
  match e.smtGetSmoothingReport now.tv_sec with
  | none => { tx with status := STT_NOTENABLED }
  | some report =>
    { tx with reply := RPY_SMOOTHING,
              data := ReplyPayload.smoothing
                ((if report.active then RPY_SMT_FLAG_ACTIVE else 0) +
                 (if report.leap_only then RPY_SMT_FLAG_LEAPONLY else 0)) report }

def handle_smoothtime (e : Env) (rx : CMD_Request) (tx : CMD_Reply) : CMD_Reply :=
  if ¬ e.smtIsEnabled then { tx with status := STT_NOTENABLED }
  else
    let option := rx.data.smoothtime_option
    if option = REQ_SMOOTHTIME_RESET then tx
    else if option = REQ_SMOOTHTIME_ACTIVATE then tx
    else { tx with status := STT_INVALID }

def handle_sourcestats (e : Env) (rx : CMD_Request) (tx : CMD_Reply) : CMD_Reply :=
  let now_corr := e.schLastEventTime
  match e.srcReportSourcestats rx.data.sourcestats_index now_corr.tv_sec with
  | some report =>
    { tx with reply := RPY_SOURCESTATS, data := ReplyPayload.sourcestats report }
  | none => { tx with status := STT_NOSUCHSOURCE }

def handle_rtcreport (e : Env) (_rx : CMD_Request) (tx : CMD_Reply) : CMD_Reply :=
  match e.rtcGetReport with
  | some report => { tx with reply := RPY_RTC, data := ReplyPayload.rtc report }
  | none => { tx with status := STT_NORTC }

def handle_trimrtc (e : Env) (_rx : CMD_Request) (tx : CMD_Reply) : CMD_Reply :=
  if ¬ e.rtcTrim then { tx with status := STT_NORTC } else tx

def handle_cyclelogs (_e : Env) (_rx : CMD_Request) (tx : CMD_Reply) : CMD_Reply :=
  tx

def mkCAIXClient (report : RPT_ClientAccessByIndex_Report) : CAIXClient :=
  { ip := report.ip_addr,
    client_hits := report.client_hits,
    peer_hits := report.peer_hits,
    cmd_hits_auth := report.cmd_hits_auth,
    cmd_hits_normal := report.cmd_hits_normal,
    cmd_hits_bad := report.cmd_hits_bad,
    last_ntp_hit_ago := report.last_ntp_hit_ago,
    last_cmd_hit_ago := report.last_cmd_hit_ago }

/-- The `for (i, j)` loop of handle_client_accesses_by_index (src/cmdmon.c
lines 1035-1064), recursing on the remaining iteration count.  `i` and `j`
are the C loop counters; `p` is the portion of the reply payload written so
far.  On CLG_INACTIVE the C sets status and returns immediately; after the
loop it writes next_index = first_index + i and n_clients = j. -/
def caix_loop (e : Env) (now_sec : Nat) (first_index : Nat) (tx : CMD_Reply)
    (p : CAIXPage) (i j : Nat) : Nat → CMD_Reply
  | 0 =>
    let p2 := { p with next_index := some (first_index + i), n_clients := some j }
    { tx with data := ReplyPayload.client_accesses_by_index p2 }
  | Nat.succ rest =>
    let (result, report, n_indices_in_table) :=
      e.clgGetClientAccessReportByIndex (first_index + i) now_sec
    let p' := { p with n_indices := some n_indices_in_table }
    match result with
    | CLG_Status.CLG_SUCCESS =>
      let p2 := { p' with clients := p'.clients ++ [mkCAIXClient report] }
      caix_loop e now_sec first_index tx p2 (i + 1) (j + 1) rest
    | CLG_Status.CLG_INDEXTOOLARGE =>
      caix_loop e now_sec first_index tx p' (i + 1) j rest
    | CLG_Status.CLG_INACTIVE =>
      { tx with status := STT_INACTIVE,
                data := ReplyPayload.client_accesses_by_index p' }

/-- handle_client_accesses_by_index, src/cmdmon.c lines 1017-1065.  Note the
reply tag is set before the loop runs, so an INACTIVE return carries the
CLIENT_ACCESSES_BY_INDEX tag. -/
def handle_client_accesses_by_index (e : Env) (rx : CMD_Request) (tx : CMD_Reply) :
    CMD_Reply :=
  let now := e.schLastEventTime
  let first_index := rx.data.client_accesses_by_index_first_index
  let n_indices0 := rx.data.client_accesses_by_index_n_indices
  let n_indices :=
    if n_indices0 > MAX_CLIENT_ACCESSES then MAX_CLIENT_ACCESSES else n_indices0
  let tx1 := { tx with reply := RPY_CLIENT_ACCESSES_BY_INDEX }
  caix_loop e now.tv_sec first_index tx1 {} 0 0 n_indices

def handle_manual_list (e : Env) (_rx : CMD_Request) (tx : CMD_Reply) : CMD_Reply :=
  let samples := e.mnlReportSamples.take MAX_MANUAL_LIST_SAMPLES
  { tx with reply := RPY_MANUAL_LIST,
            data := ReplyPayload.manual_list samples.length samples }

def handle_manual_delete (e : Env) (rx : CMD_Request) (tx : CMD_Reply) : CMD_Reply :=
  if ¬ e.mnlDeleteSample rx.data.manual_delete_index then
    { tx with status := STT_BADSAMPLE }
  else tx

def handle_make_step (e : Env) (_rx : CMD_Request) (tx : CMD_Reply) : CMD_Reply :=
  if ¬ e.lclMakeStep then { tx with status := STT_FAILED } else tx

def handle_activity (e : Env) (_rx : CMD_Request) (tx : CMD_Reply) : CMD_Reply :=
  { tx with reply := RPY_ACTIVITY, data := ReplyPayload.activity e.nsrActivityReport }

def handle_reselect_distance (_e : Env) (_rx : CMD_Request) (tx : CMD_Reply) :
    CMD_Reply :=
  tx

def handle_reselect (_e : Env) (_rx : CMD_Request) (tx : CMD_Reply) : CMD_Reply :=
  tx

def handle_refresh (_e : Env) (_rx : CMD_Request) (tx : CMD_Reply) : CMD_Reply :=
  tx

/-! ## Dispatcher -/

/-- A ClientLog accounting event (CLG_LogCommandAccess). -/
inductive ClgEvent where
  | normal (ip : IPAddrV)
  | badPkt (ip : IPAddrV)
deriving DecidableEq, Repr

/-- Everything externally observable about processing one datagram: the
reply datagrams sent (in order), which opcode's handler ran (none when
dispatch never reached a handler), the ClientLog events recorded, and
whether a failing assertion aborted the process. -/
structure Outcome where
  replies : List CMD_Reply
  handler : Option Nat
  clg : List ClgEvent
  aborted : Bool
deriving DecidableEq, Repr

/-- The template reply prepared before validation of version/opcode/length,
src/cmdmon.c lines 1259-1271: echoes the request's opcode and sequence,
status SUCCESS, reply tag NULL. -/
def mkTemplate (rx : CMD_Request) : CMD_Reply :=
  { version := PROTO_VERSION_NUMBER,
    pkt_type := PKT_TYPE_CMD_REPLY,
    res1 := 0,
    res2 := 0,
    command := rx.command,
    reply := RPY_NULL,
    status := STT_SUCCESS,
    pad1 := 0,
    pad2 := 0,
    pad3 := 0,
    sequence := rx.sequence,
    pad4 := 0,
    pad5 := 0,
    data := ReplyPayload.unset }

/-- The per-opcode authority check, src/cmdmon.c lines 1316-1337: every
command from the Unix domain socket is allowed; otherwise AUTH commands are
refused, LOCAL commands need a localhost origin, OPEN commands are
allowed. -/
def cmdAllowed (origin : Origin) (cmd : Nat) : Bool :=
  match origin with
  | Origin.unix => true
  | _ =>
    match permissions.getD cmd Permission.PERMIT_OPEN with
    | Permission.PERMIT_AUTH => false
    | Permission.PERMIT_LOCAL => isLocalhost origin
    | Permission.PERMIT_OPEN => true

/-- The access filter of src/cmdmon.c line 1230: localhost is always
allowed, anyone else must pass the C/M CIDR table. -/
def passesAccessFilter (e : Env) (origin : Origin) : Bool :=
  isLocalhost origin || e.adfAllowed (originIp origin)

/-- The dispatch switch, src/cmdmon.c lines 1340-1553.  Opcodes
SUBNETS_ACCESSED (38) and CLIENT_ACCESSES (39) have no case and fall to
`default: assert(0)`, modelled as `none`; so does any out-of-range opcode
(unreachable behind the dispatcher's own bound check). -/
def runHandler (e : Env) (cmd : Nat) (rx : CMD_Request) (tx : CMD_Reply) :
    Option CMD_Reply :=
  match cmd with
  | 0 => some tx -- REQ_NULL: do nothing
  | 6 => some (handle_dump e rx tx)
  | 1 => some (handle_online e rx tx)
  | 2 => some (handle_offline e rx tx)
  | 3 => some (handle_burst e rx tx)
  | 4 => some (handle_modify_minpoll e rx tx)
  | 5 => some (handle_modify_maxpoll e rx tx)
  | 7 => some (handle_modify_maxdelay e rx tx)
  | 8 => some (handle_modify_maxdelayratio e rx tx)
  | 47 => some (handle_modify_maxdelaydevratio e rx tx)
  | 9 => some (handle_modify_maxupdateskew e rx tx)
  | 50 => some (handle_modify_makestep e rx tx)
  | 10 => some { tx with status := STT_FAILED } -- REQ_LOGON: always fails
  | 11 => some (handle_settime e rx tx)
  | 12 => some (handle_local e rx tx)
  | 13 => some (handle_manual e rx tx)
  | 14 => some (handle_n_sources e rx tx)
  | 15 => some (handle_source_data e rx tx)
  | 16 => some (handle_rekey e rx tx)
  | 17 => some (handle_allowdeny e rx tx true false)
  | 18 => some (handle_allowdeny e rx tx true true)
  | 19 => some (handle_allowdeny e rx tx false false)
  | 20 => some (handle_allowdeny e rx tx false true)
  | 21 => some (handle_cmdallowdeny e rx tx true false)
  | 22 => some (handle_cmdallowdeny e rx tx true true)
  | 23 => some (handle_cmdallowdeny e rx tx false false)
  | 24 => some (handle_cmdallowdeny e rx tx false true)
  | 25 => some (handle_accheck e rx tx)
  | 26 => some (handle_cmdaccheck e rx tx)
  | 27 => handle_add_source NTP_Source_Type.NTP_SERVER e rx tx
  | 28 => handle_add_source NTP_Source_Type.NTP_PEER e rx tx
  | 29 => handle_del_source e rx tx
  | 30 => some (handle_writertc e rx tx)
  | 31 => some (handle_dfreq e rx tx)
  | 32 => some (handle_doffset e rx tx)
  | 33 => some (handle_tracking e rx tx)
  | 51 => some (handle_smoothing e rx tx)
  | 52 => some (handle_smoothtime e rx tx)
  | 34 => some (handle_sourcestats e rx tx)
  | 35 => some (handle_rtcreport e rx tx)
  | 36 => some (handle_trimrtc e rx tx)
  | 37 => some (handle_cyclelogs e rx tx)
  | 40 => some (handle_client_accesses_by_index e rx tx)
  | 41 => some (handle_manual_list e rx tx)
  | 42 => some (handle_manual_delete e rx tx)
  | 43 => some (handle_make_step e rx tx)
  | 44 => some (handle_activity e rx tx)
  | 49 => some (handle_reselect_distance e rx tx)
  | 48 => some (handle_reselect e rx tx)
  | 45 => some (handle_modify_minstratum e rx tx)
  | 46 => some (handle_modify_polltarget e rx tx)
  | 53 => some (handle_refresh e rx tx)
  | _ => none -- default: assert(0) — includes 38 (SUBNETS_ACCESSED), 39 (CLIENT_ACCESSES)

/-- read_from_cmd_socket, src/cmdmon.c lines 1155-1573, for a datagram that
was received intact with a recognized source (recv errors and a missing
source address never reach validation).  `read_length` is the number of
bytes read; `msg` is the received packet. -/
def read_from_cmd_socket (e : Env) (origin : Origin) (read_length : Nat)
    (msg : CMD_Request) : Outcome :=
  let remote_ip := originIp origin
  if ¬ (isLocalhost origin || e.adfAllowed remote_ip) then
    -- the client is not allowed access: drop, nothing logged
    { replies := [], handler := none, clg := [], aborted := false }
  else
    -- message size sanity check
    let expected_length :=
      if read_length ≥ REQ_data_offset then pklCommandLength msg.command else 0
    if expected_length < REQ_data_offset ∨ read_length < RPY_data_offset ∨
        msg.pkt_type ≠ PKT_TYPE_CMD_REQUEST ∨ msg.res1 ≠ 0 ∨ msg.res2 ≠ 0 then
      { replies := [], handler := none,
        clg := [ClgEvent.badPkt remote_ip], aborted := false }
    else
      let tx := mkTemplate msg
      if msg.version ≠ PROTO_VERSION_NUMBER then
        { replies :=
            if msg.version ≥ PROTO_VERSION_MISMATCH_COMPAT_SERVER then
              [{ tx with status := STT_BADPKTVERSION }]
            else [],
          handler := none, clg := [ClgEvent.badPkt remote_ip], aborted := false }
      else if msg.command ≥ N_REQUEST_TYPES then
        { replies := [{ tx with status := STT_INVALID }], handler := none,
          clg := [ClgEvent.badPkt remote_ip], aborted := false }
      else if read_length < expected_length then
        { replies := [{ tx with status := STT_BADPKTLENGTH }], handler := none,
          clg := [ClgEvent.badPkt remote_ip], aborted := false }
      else if cmdAllowed origin msg.command then
        match runHandler e msg.command msg tx with
        | some tx1 =>
          { replies := [tx1], handler := some msg.command,
            clg := [ClgEvent.normal remote_ip], aborted := false }
        | none =>
          { replies := [], handler := none,
            clg := [ClgEvent.normal remote_ip], aborted := true }
      else
        { replies := [{ tx with status := STT_UNAUTH }], handler := none,
          clg := [ClgEvent.normal remote_ip], aborted := false }

/-! ## Concrete environments and packets used by witnesses -/

/-- A concrete environment: the C/M CIDR table allows nobody, every Sources
operation succeeds, manual mode and smoothing are disabled, the client log
table is inactive. -/
def env0 : Env :=
  { adfAllowed := fun _ => false,
    adfAdd := fun _ _ _ _ => ADF_Status.ADF_SUCCESS,
    ncrAddAccessRestriction := fun _ _ _ _ => true,
    ncrCheckAccessRestriction := fun _ => true,
    nsrTakeSourcesOnline := fun _ _ => true,
    nsrTakeSourcesOffline := fun _ _ => true,
    nsrInitiateSampleBurst := fun _ _ _ _ => true,
    nsrModifyMinpoll := fun _ _ => true,
    nsrModifyMaxpoll := fun _ _ => true,
    nsrModifyMaxdelay := fun _ _ => true,
    nsrModifyMaxdelayR := fun _ _ => true,
    nsrModifyMaxdelayDevR := fun _ _ => true,
    nsrModifyMinstratum := fun _ _ => true,
    nsrModifyPolltarget := fun _ _ => true,
    nsrAddSource := fun _ _ _ => NSR_Status.NSR_Success,
    nsrRemoveSource := fun _ => NSR_Status.NSR_Success,
    nsrActivityReport := {},
    srcReadNumberOfSources := 0,
    srcReportSource := fun _ _ => none,
    srcReportSourcestats := fun _ _ => none,
    refTrackingReport := {},
    rtcWriteParameters := RTC_Status.RTC_ST_OK,
    rtcGetReport := none,
    rtcTrim := true,
    lclMakeStep := true,
    mnlIsEnabled := false,
    mnlAcceptTimestamp := fun _ => none,
    mnlReportSamples := [],
    mnlDeleteSample := fun _ => true,
    smtIsEnabled := false,
    smtGetSmoothingReport := fun _ => none,
    clgGetClientAccessReportByIndex := fun _ _ => (CLG_Status.CLG_INACTIVE, {}, 0),
    schLastEventTime := {} }

/-! ## Helper lemmas -/

theorem cmdAllowed_unix (cmd : Nat) : cmdAllowed Origin.unix cmd = true := rfl

theorem cmdAllowed_auth_not_unix (origin : Origin) (cmd : Nat)
    (h : origin ≠ Origin.unix)
    (ha : permissions.getD cmd Permission.PERMIT_OPEN = Permission.PERMIT_AUTH) :
    cmdAllowed origin cmd = false := by
  cases origin with
  | unix => exact absurd rfl h
  | ip4 a =>
    show (match permissions.getD cmd Permission.PERMIT_OPEN with
          | Permission.PERMIT_AUTH => false
          | Permission.PERMIT_LOCAL => isLocalhost (Origin.ip4 a)
          | Permission.PERMIT_OPEN => true) = false
    rw [ha]
  | ip6 a =>
    show (match permissions.getD cmd Permission.PERMIT_OPEN with
          | Permission.PERMIT_AUTH => false
          | Permission.PERMIT_LOCAL => isLocalhost (Origin.ip6 a)
          | Permission.PERMIT_OPEN => true) = false
    rw [ha]

theorem pkl_ge_ne_38 (cmd : Nat) (h : REQ_data_offset ≤ pklCommandLength cmd) :
    cmd ≠ REQ_SUBNETS_ACCESSED := by
  intro he
  subst he
  simp [pklCommandLength, REQ_data_offset] at h

theorem pkl_ge_ne_39 (cmd : Nat) (h : REQ_data_offset ≤ pklCommandLength cmd) :
    cmd ≠ REQ_CLIENT_ACCESSES := by
  intro he
  subst he
  simp [pklCommandLength, REQ_data_offset] at h

/-! ## Claim C2 -/

/-- C2: a datagram whose origin is neither the IPv4 loopback, the IPv6
loopback, nor the filesystem socket, and whose source address the C/M CIDR
table does not allow, is dropped before anything else happens: no reply is
sent, no handler runs, and no ClientLog event (normal or bad-packet) is
recorded. -/
theorem c2_cidr_denied_invisible (e : Env) (origin : Origin) (read_length : Nat)
    (msg : CMD_Request)
    (hlocal : isLocalhost origin = false)
    (hallow : e.adfAllowed (originIp origin) = false) :
    read_from_cmd_socket e origin read_length msg =
      { replies := [], handler := none, clg := [], aborted := false } := by
  unfold read_from_cmd_socket
  simp [hlocal, hallow]

/-- Witness for C2: a remote 10.0.0.1 caller with an empty allow table. -/
theorem c2_witness :
    read_from_cmd_socket env0 (Origin.ip4 0x0a000001) 36
        { version := PROTO_VERSION_NUMBER, pkt_type := PKT_TYPE_CMD_REQUEST,
          command := REQ_NULL } =
      { replies := [], handler := none, clg := [], aborted := false } :=
  c2_cidr_denied_invisible env0 (Origin.ip4 0x0a000001) 36
    { version := PROTO_VERSION_NUMBER, pkt_type := PKT_TYPE_CMD_REQUEST,
      command := REQ_NULL } (by decide) (by decide)

/-! ## Claim C1 -/

/-- C1: a request on a non-filesystem (IPv4/IPv6) socket whose opcode's
permission class is AUTH and that passes every earlier validation step gets
exactly one reply, with status UNAUTHORIZED, and its handler is never
invoked (so no collaborator mutation occurs); and every opcode is authorized
unconditionally when the request arrives on the filesystem socket. -/
theorem c1_auth_opcode_unauthorized (e : Env) (origin : Origin) (read_length : Nat)
    (msg : CMD_Request)
    (hnfs : origin ≠ Origin.unix)
    (hacc : (isLocalhost origin || e.adfAllowed (originIp origin)) = true)
    (hrl : REQ_data_offset ≤ read_length)
    (hpk : REQ_data_offset ≤ pklCommandLength msg.command)
    (hty : msg.pkt_type = PKT_TYPE_CMD_REQUEST)
    (hr1 : msg.res1 = 0)
    (hr2 : msg.res2 = 0)
    (hver : msg.version = PROTO_VERSION_NUMBER)
    (hcmd : msg.command < N_REQUEST_TYPES)
    (hlen : pklCommandLength msg.command ≤ read_length)
    (hauth : permissions.getD msg.command Permission.PERMIT_OPEN =
      Permission.PERMIT_AUTH) :
    read_from_cmd_socket e origin read_length msg =
      { replies := [{ mkTemplate msg with status := STT_UNAUTH }],
        handler := none,
        clg := [ClgEvent.normal (originIp origin)],
        aborted := false } ∧
    ∀ cmd : Nat, cmdAllowed Origin.unix cmd = true := by
  refine ⟨?_, fun cmd => rfl⟩
  have h2 : ¬ read_length < RPY_data_offset := by
    unfold REQ_data_offset at hrl
    unfold RPY_data_offset
    omega
  have h3 : ¬ pklCommandLength msg.command < REQ_data_offset := Nat.not_lt.mpr hpk
  have h4 : ¬ read_length < pklCommandLength msg.command := Nat.not_lt.mpr hlen
  have h5 : ¬ msg.command ≥ N_REQUEST_TYPES := Nat.not_le.mpr hcmd
  have h6 : cmdAllowed origin msg.command = false :=
    cmdAllowed_auth_not_unix origin msg.command hnfs hauth
  unfold read_from_cmd_socket
  simp [hacc, ge_iff_le, hrl, h2, h3, h4, h5, h6, hty, hr1, hr2, hver]

/-- An ONLINE request (opcode 1, permission AUTH) used by the C1 witness. -/
def msgC1 : CMD_Request :=
  { version := PROTO_VERSION_NUMBER, pkt_type := PKT_TYPE_CMD_REQUEST,
    command := 1, sequence := 7 }

/-- Witness for C1: REQ_ONLINE (an AUTH opcode) from the IPv4 loopback,
read at its full expected length of 76 bytes. -/
theorem c1_witness :
    read_from_cmd_socket env0 (Origin.ip4 INADDR_LOOPBACK) 76 msgC1 =
      { replies := [{ mkTemplate msgC1 with status := STT_UNAUTH }],
        handler := none,
        clg := [ClgEvent.normal (originIp (Origin.ip4 INADDR_LOOPBACK))],
        aborted := false } ∧
    ∀ cmd : Nat, cmdAllowed Origin.unix cmd = true :=
  c1_auth_opcode_unauthorized env0 (Origin.ip4 INADDR_LOOPBACK) 76 msgC1
    (by decide) (by decide) (by decide) (by decide) (by decide) (by decide)
    (by decide) (by decide) (by decide) (by decide) (by decide)

/-! ## Claim C3 -/

/-- C3: an otherwise well-formed request whose protocol version differs from
the daemon's current version always logs a bad-packet event to ClientLog;
exactly when the caller's version is at or above the compatibility floor,
exactly one reply is sent, with status BAD-PACKET-VERSION, the reply tag
still NULL, echoing the request's sequence; below the floor the packet is
dropped with no reply. -/
theorem c3_version_mismatch (e : Env) (origin : Origin) (read_length : Nat)
    (msg : CMD_Request)
    (hacc : (isLocalhost origin || e.adfAllowed (originIp origin)) = true)
    (hrl : REQ_data_offset ≤ read_length)
    (hpk : REQ_data_offset ≤ pklCommandLength msg.command)
    (hty : msg.pkt_type = PKT_TYPE_CMD_REQUEST)
    (hr1 : msg.res1 = 0)
    (hr2 : msg.res2 = 0)
    (hver : msg.version ≠ PROTO_VERSION_NUMBER) :
    read_from_cmd_socket e origin read_length msg =
      { replies :=
          if PROTO_VERSION_MISMATCH_COMPAT_SERVER ≤ msg.version then
            [{ mkTemplate msg with status := STT_BADPKTVERSION }]
          else [],
        handler := none,
        clg := [ClgEvent.badPkt (originIp origin)],
        aborted := false } ∧
    (mkTemplate msg).reply = RPY_NULL ∧
    (mkTemplate msg).sequence = msg.sequence := by
  refine ⟨?_, rfl, rfl⟩
  have h2 : ¬ read_length < RPY_data_offset := by
    unfold REQ_data_offset at hrl
    unfold RPY_data_offset
    omega
  have h3 : ¬ pklCommandLength msg.command < REQ_data_offset := Nat.not_lt.mpr hpk
  unfold read_from_cmd_socket
  simp [hacc, ge_iff_le, hrl, h2, h3, hty, hr1, hr2, hver]

/-- A SETTIME request with version current - 1 (at the compatibility floor),
used by the C3 witness. -/
def msgC3 : CMD_Request :=
  { version := PROTO_VERSION_NUMBER - 1, pkt_type := PKT_TYPE_CMD_REQUEST,
    command := REQ_SETTIME, sequence := 21 }

/-- Witness for C3: version current - 1 from the filesystem socket draws the
BAD-PACKET-VERSION reply. -/
theorem c3_witness :
    read_from_cmd_socket env0 Origin.unix 36 msgC3 =
      { replies :=
          if PROTO_VERSION_MISMATCH_COMPAT_SERVER ≤ msgC3.version then
            [{ mkTemplate msgC3 with status := STT_BADPKTVERSION }]
          else [],
        handler := none,
        clg := [ClgEvent.badPkt (originIp Origin.unix)],
        aborted := false } ∧
    (mkTemplate msgC3).reply = RPY_NULL ∧
    (mkTemplate msgC3).sequence = msgC3.sequence :=
  c3_version_mismatch env0 Origin.unix 36 msgC3
    (by decide) (by decide) (by decide) (by decide) (by decide) (by decide)
    (by decide)

/-! ## Claim C4 -/

/-- C4: for a request that passes the access filter with a well-formed
header and the current protocol version, an opcode at or above the opcode
count draws exactly one reply with status INVALID, and a recognized opcode
whose received length is below the expected length draws exactly one reply
with status BAD-LENGTH; both replies echo the request's opcode and sequence,
and both paths log a bad-packet event. -/
theorem c4_invalid_and_badlength (e : Env) (origin : Origin) (read_length : Nat)
    (msg : CMD_Request)
    (hacc : (isLocalhost origin || e.adfAllowed (originIp origin)) = true)
    (hrl : REQ_data_offset ≤ read_length)
    (hty : msg.pkt_type = PKT_TYPE_CMD_REQUEST)
    (hr1 : msg.res1 = 0)
    (hr2 : msg.res2 = 0)
    (hver : msg.version = PROTO_VERSION_NUMBER) :
    (N_REQUEST_TYPES ≤ msg.command →
      read_from_cmd_socket e origin read_length msg =
        { replies := [{ mkTemplate msg with status := STT_INVALID }],
          handler := none,
          clg := [ClgEvent.badPkt (originIp origin)],
          aborted := false }) ∧
    (msg.command < N_REQUEST_TYPES →
      REQ_data_offset ≤ pklCommandLength msg.command →
      read_length < pklCommandLength msg.command →
      read_from_cmd_socket e origin read_length msg =
        { replies := [{ mkTemplate msg with status := STT_BADPKTLENGTH }],
          handler := none,
          clg := [ClgEvent.badPkt (originIp origin)],
          aborted := false }) ∧
    (mkTemplate msg).command = msg.command ∧
    (mkTemplate msg).sequence = msg.sequence := by
  refine ⟨?_, ?_, rfl, rfl⟩
  · intro hbig
    have h2 : ¬ read_length < RPY_data_offset := by
      unfold REQ_data_offset at hrl
      unfold RPY_data_offset
      omega
    have hpk : REQ_data_offset ≤ pklCommandLength msg.command := by
      have h38 : msg.command ≠ REQ_SUBNETS_ACCESSED := by
        unfold N_REQUEST_TYPES at hbig
        unfold REQ_SUBNETS_ACCESSED
        omega
      have h39 : msg.command ≠ REQ_CLIENT_ACCESSES := by
        unfold N_REQUEST_TYPES at hbig
        unfold REQ_CLIENT_ACCESSES
        omega
      have hno : ¬ msg.command < N_REQUEST_TYPES := Nat.not_lt.mpr hbig
      simp [pklCommandLength, h38, h39, hno]
    have h3 : ¬ pklCommandLength msg.command < REQ_data_offset := Nat.not_lt.mpr hpk
    unfold read_from_cmd_socket
    simp [hacc, ge_iff_le, hrl, h2, h3, hty, hr1, hr2, hver, hbig]
  · intro hcmd hpk hshort
    have h2 : ¬ read_length < RPY_data_offset := by
      unfold REQ_data_offset at hrl
      unfold RPY_data_offset
      omega
    have h3 : ¬ pklCommandLength msg.command < REQ_data_offset := Nat.not_lt.mpr hpk
    have h5 : ¬ msg.command ≥ N_REQUEST_TYPES := Nat.not_le.mpr hcmd
    unfold read_from_cmd_socket
    simp [hacc, ge_iff_le, hrl, h2, h3, h5, hty, hr1, hr2, hver, hshort]

/-- A request with out-of-range opcode 77, used by the C4 witness. -/
def msgC4 : CMD_Request :=
  { version := PROTO_VERSION_NUMBER, pkt_type := PKT_TYPE_CMD_REQUEST,
    command := 77, sequence := 5 }

/-- An ONLINE request (expected length 76), used by the C4 witness with
only 40 bytes read, so the length check fails. -/
def msgC4b : CMD_Request :=
  { version := PROTO_VERSION_NUMBER, pkt_type := PKT_TYPE_CMD_REQUEST,
    command := 1, sequence := 6 }

/-- Witness for C4, exercising both branches: opcode 77 from the filesystem
socket draws the INVALID reply, and a 40-byte ONLINE request (expected
length 76) draws the BAD-LENGTH reply. -/
theorem c4_witness :
    (read_from_cmd_socket env0 Origin.unix 36 msgC4 =
      { replies := [{ mkTemplate msgC4 with status := STT_INVALID }],
        handler := none,
        clg := [ClgEvent.badPkt (originIp Origin.unix)],
        aborted := false } ∧
    (mkTemplate msgC4).command = msgC4.command ∧
    (mkTemplate msgC4).sequence = msgC4.sequence) ∧
    (read_from_cmd_socket env0 Origin.unix 40 msgC4b =
      { replies := [{ mkTemplate msgC4b with status := STT_BADPKTLENGTH }],
        handler := none,
        clg := [ClgEvent.badPkt (originIp Origin.unix)],
        aborted := false } ∧
    (mkTemplate msgC4b).command = msgC4b.command ∧
    (mkTemplate msgC4b).sequence = msgC4b.sequence) :=
  have h := c4_invalid_and_badlength env0 Origin.unix 36 msgC4
    (by decide) (by decide) (by decide) (by decide) (by decide) (by decide)
  have hb := c4_invalid_and_badlength env0 Origin.unix 40 msgC4b
    (by decide) (by decide) (by decide) (by decide) (by decide) (by decide)
  ⟨⟨h.1 (by decide), h.2.2⟩,
   ⟨hb.2.1 (by decide) (by decide) (by decide), hb.2.2⟩⟩


/-! ## Claim C5 -/

theorem addSourceStatusReply_isSome (s : NSR_Status) (tx : CMD_Reply)
    (h : s ≠ NSR_Status.NSR_NoSuchSource) :
    (addSourceStatusReply s tx).isSome := by
  cases s <;> simp_all [addSourceStatusReply]

theorem delSourceStatusReply_isSome (s : NSR_Status) (tx : CMD_Reply)
    (h : s = NSR_Status.NSR_Success ∨ s = NSR_Status.NSR_NoSuchSource) :
    (delSourceStatusReply s tx).isSome := by
  rcases h with h | h <;> subst h <;> simp [delSourceStatusReply]

theorem handle_add_source_isSome (t : NTP_Source_Type) (e : Env)
    (rx : CMD_Request) (tx : CMD_Reply)
    (hadd : ∀ ty a p, e.nsrAddSource ty a p ≠ NSR_Status.NSR_NoSuchSource) :
    (handle_add_source t e rx tx).isSome := by
  unfold handle_add_source
  exact addSourceStatusReply_isSome _ _ (hadd _ _ _)

theorem handle_del_source_isSome (e : Env) (rx : CMD_Request) (tx : CMD_Reply)
    (hdel : ∀ a, e.nsrRemoveSource a = NSR_Status.NSR_Success ∨
      e.nsrRemoveSource a = NSR_Status.NSR_NoSuchSource) :
    (handle_del_source e rx tx).isSome := by
  unfold handle_del_source
  exact delSourceStatusReply_isSome _ _ (hdel _)

/-- For every opcode with a dispatch case (all 0..53 except the two legacy
ones) and collaborators that respect the Sources contract, the dispatch
switch reaches a handler and returns a reply. -/
theorem runHandler_isSome (e : Env) (cmd : Nat) (rx : CMD_Request) (tx : CMD_Reply)
    (hcmd : cmd < N_REQUEST_TYPES)
    (h38 : cmd ≠ REQ_SUBNETS_ACCESSED)
    (h39 : cmd ≠ REQ_CLIENT_ACCESSES)
    (hadd : ∀ ty a p, e.nsrAddSource ty a p ≠ NSR_Status.NSR_NoSuchSource)
    (hdel : ∀ a, e.nsrRemoveSource a = NSR_Status.NSR_Success ∨
      e.nsrRemoveSource a = NSR_Status.NSR_NoSuchSource) :
    (runHandler e cmd rx tx).isSome := by
  unfold N_REQUEST_TYPES at hcmd
  unfold REQ_SUBNETS_ACCESSED at h38
  unfold REQ_CLIENT_ACCESSES at h39
  interval_cases cmd <;>
    first
      | exact absurd rfl h38
      | exact absurd rfl h39
      | (simp only [runHandler]; simp)
      | (simp only [runHandler]; exact handle_add_source_isSome _ _ _ _ hadd)
      | (simp only [runHandler]; exact handle_del_source_isSome _ _ _ hdel)

/-- The dispatcher never sends more than one datagram for one received
packet. -/
theorem replies_length_le_one (e : Env) (o : Origin) (l : Nat) (m : CMD_Request) :
    (read_from_cmd_socket e o l m).replies.length ≤ 1 := by
  unfold read_from_cmd_socket
  by_cases h1 : ¬ (isLocalhost o || e.adfAllowed (originIp o)) = true
  · rw [if_pos h1]; simp
  · rw [if_neg h1]
    by_cases h2 : (if l ≥ REQ_data_offset then pklCommandLength m.command else 0) <
        REQ_data_offset ∨ l < RPY_data_offset ∨ m.pkt_type ≠ PKT_TYPE_CMD_REQUEST ∨
        m.res1 ≠ 0 ∨ m.res2 ≠ 0
    · rw [if_pos h2]; simp
    · rw [if_neg h2]
      by_cases h3 : m.version ≠ PROTO_VERSION_NUMBER
      · rw [if_pos h3]
        split <;> simp
      · rw [if_neg h3]
        by_cases h4 : m.command ≥ N_REQUEST_TYPES
        · rw [if_pos h4]; simp
        · rw [if_neg h4]
          by_cases h5 : l < (if l ≥ REQ_data_offset then pklCommandLength m.command else 0)
          · rw [if_pos h5]; simp
          · rw [if_neg h5]
            by_cases h6 : cmdAllowed o m.command = true
            · rw [if_pos h6]
              rcases hr : runHandler e m.command m (mkTemplate m) with _ | tx1 <;>
                simp [hr]
            · rw [if_neg h6]; simp

/-- C5: every packet that passes the full validation pipeline is dispatched
with a template reply that echoes the request's opcode and sequence and
carries status SUCCESS and reply tag NULL; exactly one handler runs, then
exactly one reply is emitted; and no packet, validated or rejected, ever
draws more than one reply datagram. -/
theorem c5_validated_exactly_one_reply (e : Env) (origin : Origin)
    (read_length : Nat) (msg : CMD_Request)
    (hadd : ∀ ty a p, e.nsrAddSource ty a p ≠ NSR_Status.NSR_NoSuchSource)
    (hdel : ∀ a, e.nsrRemoveSource a = NSR_Status.NSR_Success ∨
      e.nsrRemoveSource a = NSR_Status.NSR_NoSuchSource)
    (hacc : (isLocalhost origin || e.adfAllowed (originIp origin)) = true)
    (hrl : REQ_data_offset ≤ read_length)
    (hpk : REQ_data_offset ≤ pklCommandLength msg.command)
    (hty : msg.pkt_type = PKT_TYPE_CMD_REQUEST)
    (hr1 : msg.res1 = 0)
    (hr2 : msg.res2 = 0)
    (hver : msg.version = PROTO_VERSION_NUMBER)
    (hcmd : msg.command < N_REQUEST_TYPES)
    (hlen : pklCommandLength msg.command ≤ read_length)
    (hallow : cmdAllowed origin msg.command = true) :
    (∃ tx1, runHandler e msg.command msg (mkTemplate msg) = some tx1 ∧
      read_from_cmd_socket e origin read_length msg =
        { replies := [tx1], handler := some msg.command,
          clg := [ClgEvent.normal (originIp origin)], aborted := false }) ∧
    (mkTemplate msg).status = STT_SUCCESS ∧
    (mkTemplate msg).reply = RPY_NULL ∧
    (mkTemplate msg).command = msg.command ∧
    (mkTemplate msg).sequence = msg.sequence ∧
    ∀ (e2 : Env) (o2 : Origin) (l2 : Nat) (m2 : CMD_Request),
      (read_from_cmd_socket e2 o2 l2 m2).replies.length ≤ 1 := by
  refine ⟨?_, rfl, rfl, rfl, rfl, fun e2 o2 l2 m2 => replies_length_le_one e2 o2 l2 m2⟩
  have hsome := runHandler_isSome e msg.command msg (mkTemplate msg) hcmd
    (pkl_ge_ne_38 _ hpk) (pkl_ge_ne_39 _ hpk) hadd hdel
  obtain ⟨tx1, hx⟩ := Option.isSome_iff_exists.mp hsome
  refine ⟨tx1, hx, ?_⟩
  have h2 : ¬ read_length < RPY_data_offset := by
    unfold REQ_data_offset at hrl
    unfold RPY_data_offset
    omega
  have h3 : ¬ pklCommandLength msg.command < REQ_data_offset := Nat.not_lt.mpr hpk
  have h4 : ¬ read_length < pklCommandLength msg.command := Nat.not_lt.mpr hlen
  have h5 : ¬ msg.command ≥ N_REQUEST_TYPES := Nat.not_le.mpr hcmd
  unfold read_from_cmd_socket
  simp [hacc, ge_iff_le, hrl, h2, h3, h4, h5, hty, hr1, hr2, hver, hallow, hx]

/-- A NULL request from the filesystem socket, used by the C5 witness. -/
def msgC5 : CMD_Request :=
  { version := PROTO_VERSION_NUMBER, pkt_type := PKT_TYPE_CMD_REQUEST,
    command := REQ_NULL, sequence := 3 }

/-- Witness for C5: the NULL opcode from the filesystem socket is dispatched
and answered with exactly one reply. -/
theorem c5_witness :
    (∃ tx1, runHandler env0 msgC5.command msgC5 (mkTemplate msgC5) = some tx1 ∧
      read_from_cmd_socket env0 Origin.unix 36 msgC5 =
        { replies := [tx1], handler := some msgC5.command,
          clg := [ClgEvent.normal (originIp Origin.unix)], aborted := false }) ∧
    (mkTemplate msgC5).status = STT_SUCCESS ∧
    (mkTemplate msgC5).reply = RPY_NULL ∧
    (mkTemplate msgC5).command = msgC5.command ∧
    (mkTemplate msgC5).sequence = msgC5.sequence ∧
    ∀ (e2 : Env) (o2 : Origin) (l2 : Nat) (m2 : CMD_Request),
      (read_from_cmd_socket e2 o2 l2 m2).replies.length ≤ 1 :=
  c5_validated_exactly_one_reply env0 Origin.unix 36 msgC5
    (fun _ _ _ h => nomatch h) (fun _ => Or.inl rfl)
    (by decide) (by decide) (by decide) (by decide) (by decide) (by decide)
    (by decide) (by decide) (by decide) (by decide)

/-! ## Claim C6 -/

/-- Number of indices in `[first + i, first + i + fuel)` for which the
ClientLog oracle reports a row (CLG_SUCCESS): the number of rows the loop
packs. -/
def caixSuccCount (e : Env) (now_sec first : Nat) : Nat → Nat → Nat
  | _i, 0 => 0
  | i, Nat.succ k =>
    (match (e.clgGetClientAccessReportByIndex (first + i) now_sec).1 with
     | CLG_Status.CLG_SUCCESS => 1
     | _ => 0) + caixSuccCount e now_sec first (i + 1) k

/-- When no consulted index reports CLG_INACTIVE, the loop runs to the end
and writes next_index = first + i + n and n_clients = j + packed rows. -/
theorem caix_loop_no_inactive (e : Env) (now_sec first : Nat) (tx : CMD_Reply) :
    ∀ (n i j : Nat) (p : CAIXPage),
      (∀ k, k < n →
        (e.clgGetClientAccessReportByIndex (first + (i + k)) now_sec).1 ≠
          CLG_Status.CLG_INACTIVE) →
      ∃ p' : CAIXPage,
        caix_loop e now_sec first tx p i j n =
          { tx with data := ReplyPayload.client_accesses_by_index p' } ∧
        p'.next_index = some (first + (i + n)) ∧
        p'.n_clients = some (j + caixSuccCount e now_sec first i n) := by
  intro n
  induction n with
  | zero =>
    intro i j p _h
    exact ⟨{ p with next_index := some (first + i), n_clients := some j }, rfl, rfl, rfl⟩
  | succ k ih =>
    intro i j p h
    have h0 : (e.clgGetClientAccessReportByIndex (first + i) now_sec).1 ≠
        CLG_Status.CLG_INACTIVE := by
      have := h 0 (Nat.succ_pos k)
      simpa using this
    have hsh : ∀ k2, k2 < k →
        (e.clgGetClientAccessReportByIndex (first + (i + 1 + k2)) now_sec).1 ≠
          CLG_Status.CLG_INACTIVE := by
      intro k2 hk2
      have := h (k2 + 1) (Nat.succ_lt_succ hk2)
      have harith : first + (i + (k2 + 1)) = first + (i + 1 + k2) := by omega
      rwa [harith] at this
    unfold caix_loop
    rcases hc : e.clgGetClientAccessReportByIndex (first + i) now_sec with
      ⟨result, report, ntab⟩
    rw [hc] at h0
    cases result with
    | CLG_SUCCESS =>
      have hcount : caixSuccCount e now_sec first i (k + 1) =
          1 + caixSuccCount e now_sec first (i + 1) k := by
        conv_lhs => rw [caixSuccCount]
        rw [hc]
      simp only [hc]
      obtain ⟨p', hp, hnext, hcli⟩ := ih (i + 1) (j + 1)
        ({ p with n_indices := some ntab,
                  clients := p.clients ++ [mkCAIXClient report] }) hsh
      refine ⟨p', hp, ?_, ?_⟩
      · rw [hnext]
        have harith : first + (i + 1 + k) = first + (i + (k + 1)) := by omega
        rw [harith]
      · rw [hcli, hcount]
        have harith : j + 1 + caixSuccCount e now_sec first (i + 1) k =
            j + (1 + caixSuccCount e now_sec first (i + 1) k) := by omega
        rw [harith]
    | CLG_INDEXTOOLARGE =>
      have hcount : caixSuccCount e now_sec first i (k + 1) =
          caixSuccCount e now_sec first (i + 1) k := by
        conv_lhs => rw [caixSuccCount]
        rw [hc]
        simp
      simp only [hc]
      obtain ⟨p', hp, hnext, hcli⟩ := ih (i + 1) j ({ p with n_indices := some ntab }) hsh
      refine ⟨p', hp, ?_, ?_⟩
      · rw [hnext]
        have harith : first + (i + 1 + k) = first + (i + (k + 1)) := by omega
        rw [harith]
      · rw [hcli, hcount]
    | CLG_INACTIVE => exact absurd rfl h0

/-- The C6 scenario environment: a ClientLog table of size 6 with rows at
indices 2 and 5 (every other index reports CLG_INDEXTOOLARGE). -/
def env6 : Env :=
  { env0 with
    clgGetClientAccessReportByIndex := fun idx _ =>
      if idx = 2 then
        (CLG_Status.CLG_SUCCESS,
          { ip_addr := IPAddrV.v4 0xc0000202, client_hits := 12 }, 6)
      else if idx = 5 then
        (CLG_Status.CLG_SUCCESS,
          { ip_addr := IPAddrV.v4 0xc0000205, client_hits := 15 }, 6)
      else (CLG_Status.CLG_INDEXTOOLARGE, {}, 6) }

/-- The C6 scenario request: CLIENT_ACCESSES_BY_INDEX with first_index 0 and
n_indices 8. -/
def msgC6 : CMD_Request :=
  { version := PROTO_VERSION_NUMBER, pkt_type := PKT_TYPE_CMD_REQUEST,
    command := REQ_CLIENT_ACCESSES_BY_INDEX, sequence := 11,
    data := { client_accesses_by_index_first_index := 0,
              client_accesses_by_index_n_indices := 8 } }

/-- C6: CLIENT-ACCESSES-BY-INDEX (a) replies INACTIVE immediately when the
table is inactive, (b) otherwise returns a page with next_index = first +
requested (after clamping to the implementation maximum) and n_clients = the
number of rows packed (out-of-range indices are skipped), (c) returns a
valid empty page when the requested count is zero, and (d) in the spec's
scenario (first=0, n=8, rows at indices 2 and 5, table size 6) replies with
n_clients=2, next_index=8, n_indices=6 and status SUCCESS. -/
theorem c6_client_accesses_by_index :
    (∀ (e : Env) (rx : CMD_Request) (tx : CMD_Reply),
      (∀ idx t, (e.clgGetClientAccessReportByIndex idx t).1 =
        CLG_Status.CLG_INACTIVE) →
      0 < rx.data.client_accesses_by_index_n_indices →
      handle_client_accesses_by_index e rx tx =
        { tx with reply := RPY_CLIENT_ACCESSES_BY_INDEX,
                  status := STT_INACTIVE,
                  data := ReplyPayload.client_accesses_by_index
                    { n_indices := some ((e.clgGetClientAccessReportByIndex
                        rx.data.client_accesses_by_index_first_index
                        e.schLastEventTime.tv_sec).2.2),
                      next_index := none, n_clients := none, clients := [] } }) ∧
    (∀ (e : Env) (rx : CMD_Request) (tx : CMD_Reply),
      (∀ k, k < (if rx.data.client_accesses_by_index_n_indices >
                    MAX_CLIENT_ACCESSES then MAX_CLIENT_ACCESSES
                 else rx.data.client_accesses_by_index_n_indices) →
        (e.clgGetClientAccessReportByIndex
          (rx.data.client_accesses_by_index_first_index + k)
          e.schLastEventTime.tv_sec).1 ≠ CLG_Status.CLG_INACTIVE) →
      ∃ p' : CAIXPage,
        handle_client_accesses_by_index e rx tx =
          { tx with reply := RPY_CLIENT_ACCESSES_BY_INDEX,
                    data := ReplyPayload.client_accesses_by_index p' } ∧
        p'.next_index = some (rx.data.client_accesses_by_index_first_index +
          (if rx.data.client_accesses_by_index_n_indices > MAX_CLIENT_ACCESSES
           then MAX_CLIENT_ACCESSES
           else rx.data.client_accesses_by_index_n_indices)) ∧
        p'.n_clients = some (caixSuccCount e e.schLastEventTime.tv_sec
          rx.data.client_accesses_by_index_first_index 0
          (if rx.data.client_accesses_by_index_n_indices > MAX_CLIENT_ACCESSES
           then MAX_CLIENT_ACCESSES
           else rx.data.client_accesses_by_index_n_indices))) ∧
    (∀ (e : Env) (rx : CMD_Request) (tx : CMD_Reply),
      rx.data.client_accesses_by_index_n_indices = 0 →
      handle_client_accesses_by_index e rx tx =
        { tx with reply := RPY_CLIENT_ACCESSES_BY_INDEX,
                  data := ReplyPayload.client_accesses_by_index
                    { n_indices := none,
                      next_index :=
                        some rx.data.client_accesses_by_index_first_index,
                      n_clients := some 0, clients := [] } }) ∧
    read_from_cmd_socket env6 Origin.unix 44 msgC6 =
      { replies := [{ version := PROTO_VERSION_NUMBER,
                      pkt_type := PKT_TYPE_CMD_REPLY,
                      res1 := 0, res2 := 0,
                      command := REQ_CLIENT_ACCESSES_BY_INDEX,
                      reply := RPY_CLIENT_ACCESSES_BY_INDEX,
                      status := STT_SUCCESS,
                      pad1 := 0, pad2 := 0, pad3 := 0,
                      sequence := 11, pad4 := 0, pad5 := 0,
                      data := ReplyPayload.client_accesses_by_index
                        { n_indices := some 6, next_index := some 8,
                          n_clients := some 2,
                          clients :=
                            [mkCAIXClient
                              { ip_addr := IPAddrV.v4 0xc0000202,
                                client_hits := 12 },
                             mkCAIXClient
                              { ip_addr := IPAddrV.v4 0xc0000205,
                                client_hits := 15 }] } }],
        handler := some REQ_CLIENT_ACCESSES_BY_INDEX,
        clg := [ClgEvent.normal IPAddrV.unspec],
        aborted := false } := by
  refine ⟨?_, ?_, ?_, by decide⟩
  · intro e rx tx hin hpos
    unfold handle_client_accesses_by_index
    dsimp only
    cases hm : (if rx.data.client_accesses_by_index_n_indices >
        MAX_CLIENT_ACCESSES then MAX_CLIENT_ACCESSES
        else rx.data.client_accesses_by_index_n_indices) with
    | zero =>
      exfalso
      by_cases hgt : rx.data.client_accesses_by_index_n_indices >
          MAX_CLIENT_ACCESSES
      · rw [if_pos hgt] at hm
        exact absurd hm (by decide)
      · rw [if_neg hgt] at hm
        omega
    | succ m =>
      unfold caix_loop
      simp only [Nat.add_zero]
      rcases hc : e.clgGetClientAccessReportByIndex
          rx.data.client_accesses_by_index_first_index
          e.schLastEventTime.tv_sec with ⟨result, report, ntab⟩
      have h1 := hin rx.data.client_accesses_by_index_first_index
        e.schLastEventTime.tv_sec
      rw [hc] at h1
      simp at h1
      subst h1
      simp only [hc]
  · intro e rx tx h
    obtain ⟨p', hp, hnext, hcli⟩ := caix_loop_no_inactive e
      e.schLastEventTime.tv_sec rx.data.client_accesses_by_index_first_index
      ({ tx with reply := RPY_CLIENT_ACCESSES_BY_INDEX })
      (if rx.data.client_accesses_by_index_n_indices > MAX_CLIENT_ACCESSES
       then MAX_CLIENT_ACCESSES else rx.data.client_accesses_by_index_n_indices)
      0 0 {} (by intro k hk; have := h k hk; simpa using this)
    refine ⟨p', ?_, ?_, ?_⟩
    · unfold handle_client_accesses_by_index
      exact hp
    · rw [hnext]
      simp
    · rw [hcli]
      simp
  · intro e rx tx hz
    unfold handle_client_accesses_by_index
    rw [hz]
    rfl

/-! ## Claim C7 -/

/-- The caix loop never changes the reply tag, and only ever changes the
status to INACTIVE. -/
theorem caix_loop_status_reply (e : Env) (now_sec first : Nat) (tx : CMD_Reply) :
    ∀ (n i j : Nat) (p : CAIXPage),
      ((caix_loop e now_sec first tx p i j n).status = tx.status ∨
        (caix_loop e now_sec first tx p i j n).status = STT_INACTIVE) ∧
      (caix_loop e now_sec first tx p i j n).reply = tx.reply := by
  intro n
  induction n with
  | zero => intro i j p; exact ⟨Or.inl rfl, rfl⟩
  | succ k ih =>
    intro i j p
    unfold caix_loop
    rcases hc : e.clgGetClientAccessReportByIndex (first + i) now_sec with
      ⟨result, report, ntab⟩
    cases result with
    | CLG_SUCCESS => simpa [hc] using ih (i + 1) (j + 1) _
    | CLG_INDEXTOOLARGE => simpa [hc] using ih (i + 1) j _
    | CLG_INACTIVE => simp [hc]

theorem addSourceStatusReply_cases (s : NSR_Status) (tx tx' : CMD_Reply)
    (h : addSourceStatusReply s tx = some tx') :
    tx' = tx ∨ tx' = { tx with status := STT_SOURCEALREADYKNOWN } ∨
    tx' = { tx with status := STT_TOOMANYSOURCES } ∨
    tx' = { tx with status := STT_INVALIDAF } := by
  cases s <;> simp [addSourceStatusReply] at h <;> simp [h]

theorem delSourceStatusReply_cases (s : NSR_Status) (tx tx' : CMD_Reply)
    (h : delSourceStatusReply s tx = some tx') :
    tx' = tx ∨ tx' = { tx with status := STT_NOSUCHSOURCE } := by
  cases s <;> simp [delSourceStatusReply] at h <;> simp [h]

/-- The reply tag a fully successful handler leaves for each opcode:
the opcode's payload tag for reporting opcodes, NULL for the rest. -/
def successReplyTag : Nat → Nat
  | 11 => RPY_MANUAL_TIMESTAMP
  | 14 => RPY_N_SOURCES
  | 15 => RPY_SOURCE_DATA
  | 33 => RPY_TRACKING
  | 34 => RPY_SOURCESTATS
  | 35 => RPY_RTC
  | 40 => RPY_CLIENT_ACCESSES_BY_INDEX
  | 41 => RPY_MANUAL_LIST
  | 44 => RPY_ACTIVITY
  | 51 => RPY_SMOOTHING
  | _ => RPY_NULL

/-- C7 (amended): every handler that fails for a semantic reason sets the
status to the taxonomy code and leaves the reply tag at NULL — except
CLIENT-ACCESSES-BY-INDEX, which sets its reply tag before the inactive
check, so its INACTIVE reply carries the CLIENT-ACCESSES-BY-INDEX tag; a
handler that leaves status SUCCESS leaves the reply tag at the opcode's
success tag (the payload tag for reporting opcodes, NULL otherwise). -/
theorem c7_handler_status_tag (e : Env) (cmd : Nat) (rx : CMD_Request)
    (tx' : CMD_Reply)
    (hcmd : cmd < N_REQUEST_TYPES)
    (hrun : runHandler e cmd rx (mkTemplate rx) = some tx') :
    (tx'.status ≠ STT_SUCCESS →
      (tx'.reply = RPY_NULL ∨ cmd = REQ_CLIENT_ACCESSES_BY_INDEX)) ∧
    (tx'.status = STT_SUCCESS → tx'.reply = successReplyTag cmd) := by
  unfold N_REQUEST_TYPES at hcmd
  interval_cases cmd <;> simp only [runHandler] at hrun
  all_goals try exact Option.noConfusion hrun
  all_goals try simp only [Option.some.injEq] at hrun
  all_goals try unfold handle_add_source at hrun
  all_goals try unfold handle_del_source at hrun
  all_goals try (rcases addSourceStatusReply_cases _ _ _ hrun with h | h | h | h <;> subst h)
  all_goals try (rcases delSourceStatusReply_cases _ _ _ hrun with h | h <;> subst h)
  all_goals try subst hrun
  all_goals first
    | exact ⟨fun _ => Or.inr rfl,
        fun _ => (caix_loop_status_reply e e.schLastEventTime.tv_sec
          rx.data.client_accesses_by_index_first_index _ _ 0 0 _).2⟩
    | (try simp only [handle_dump, handle_online, handle_offline, handle_burst,
         handle_modify_minpoll, handle_modify_maxpoll, handle_modify_maxdelay,
         handle_modify_maxdelayratio, handle_modify_maxdelaydevratio,
         handle_modify_maxupdateskew, handle_modify_makestep, handle_settime,
         handle_local, handle_manual, handle_n_sources, handle_source_data,
         handle_rekey, handle_allowdeny, handle_cmdallowdeny, handle_accheck,
         handle_cmdaccheck, handle_writertc, handle_dfreq, handle_doffset,
         handle_tracking, handle_smoothing, handle_smoothtime,
         handle_sourcestats, handle_rtcreport, handle_trimrtc,
         handle_cyclelogs, handle_manual_list, handle_manual_delete,
         handle_make_step, handle_activity, handle_reselect_distance,
         handle_reselect, handle_refresh, handle_modify_minstratum,
         handle_modify_polltarget, CAM_AddAccessRestriction,
         CAM_CheckAccessRestriction]) <;>
      (repeat' split) <;>
      constructor <;> intro hst <;>
      simp_all [mkTemplate, successReplyTag, STT_SUCCESS, STT_FAILED,
        STT_UNAUTH, STT_INVALID, STT_NOSUCHSOURCE, STT_NOTENABLED,
        STT_BADSUBNET, STT_ACCESSALLOWED, STT_ACCESSDENIED,
        STT_SOURCEALREADYKNOWN, STT_TOOMANYSOURCES, STT_NORTC,
        STT_BADRTCFILE, STT_INACTIVE, STT_BADSAMPLE, STT_INVALIDAF,
        RPY_NULL, RPY_N_SOURCES, RPY_SOURCE_DATA, RPY_MANUAL_TIMESTAMP,
        RPY_TRACKING, RPY_SOURCESTATS, RPY_RTC,
        RPY_CLIENT_ACCESSES_BY_INDEX, RPY_MANUAL_LIST, RPY_ACTIVITY,
        RPY_SMOOTHING]

/-- A CLIENT_ACCESSES_BY_INDEX request asking for one row, used by the C7
counterexample. -/
def msgC7 : CMD_Request :=
  { version := PROTO_VERSION_NUMBER, pkt_type := PKT_TYPE_CMD_REQUEST,
    command := REQ_CLIENT_ACCESSES_BY_INDEX, sequence := 9,
    data := { client_accesses_by_index_n_indices := 1 } }

/-- Counterexample to C7 as stated: with an inactive ClientLog table, the
CLIENT-ACCESSES-BY-INDEX handler fails semantically (status INACTIVE) yet
the emitted reply's tag is CLIENT-ACCESSES-BY-INDEX, not NULL, because the
handler sets the tag before the inactive check. -/
theorem c7_counterexample :
    ((read_from_cmd_socket env0 Origin.unix 44 msgC7).replies.map
      CMD_Reply.status) = [STT_INACTIVE] ∧
    ((read_from_cmd_socket env0 Origin.unix 44 msgC7).replies.map
      CMD_Reply.reply) = [RPY_CLIENT_ACCESSES_BY_INDEX] ∧
    STT_INACTIVE ≠ STT_SUCCESS ∧
    RPY_CLIENT_ACCESSES_BY_INDEX ≠ RPY_NULL := by decide

/-- The reply the SETTIME handler produces when manual mode is disabled,
used by the C7 witness. -/
def txC7w : CMD_Reply := { mkTemplate msgC3 with status := STT_NOTENABLED }

/-- Witness for the amended C7: SETTIME with manual mode disabled sets
status NOT-ENABLED and leaves the reply tag at NULL. -/
theorem c7_witness :
    (txC7w.status ≠ STT_SUCCESS →
      (txC7w.reply = RPY_NULL ∨ REQ_SETTIME = REQ_CLIENT_ACCESSES_BY_INDEX)) ∧
    (txC7w.status = STT_SUCCESS → txC7w.reply = successReplyTag REQ_SETTIME) :=
  c7_handler_status_tag env0 REQ_SETTIME msgC3 txC7w (by decide) (by decide)

/-! ## Claim C8 -/

/-- C8: MODIFY-MAXPOLL and MODIFY-MINSTRATUM behave, for every environment
and every request payload, exactly as handlers that read the address and
the new value from their own opcode's payload variant and pass them to the
Sources collaborator; in the wire union every modify-family variant stores
its address (and its 32-bit value) at the same offsets, so the variant
accessors agree on every payload. -/
theorem c8_modify_targets_request_address (e : Env) (rx : CMD_Request)
    (tx : CMD_Reply) :
    handle_modify_maxpoll e rx tx =
      (if e.nsrModifyMaxpoll rx.modify_maxpoll_address rx.modify_maxpoll_new_maxpoll
       then tx else { tx with status := STT_NOSUCHSOURCE }) ∧
    handle_modify_minstratum e rx tx =
      (if e.nsrModifyMinstratum rx.modify_minstratum_address
            rx.modify_minstratum_new_min_stratum
       then tx else { tx with status := STT_NOSUCHSOURCE }) ∧
    (∀ r : CMD_Request,
      r.modify_maxpoll_address = r.modify_minpoll_address ∧
      r.modify_minstratum_address = r.modify_minpoll_address ∧
      r.modify_maxpoll_new_maxpoll = r.modify_minpoll_new_minpoll) :=
  ⟨rfl, rfl, fun _ => ⟨rfl, rfl, rfl⟩⟩

/-! ## Claim C9 -/

/-- C9: the assertions of CAM_Initialise hold for every opcode, so
initialization never aborts on them: the permission table has exactly one
entry per opcode; padding length is at most 16 and at most the command
length; and every nonzero command length covers the request header (and
hence also the reply header, which is what the source's assert literally
compares against). -/
theorem c9_init_assertions :
    permissions.length = N_REQUEST_TYPES ∧
    ∀ c, c < N_REQUEST_TYPES →
      pklCommandPaddingLength c ≤ MAX_PADDING_LENGTH ∧
      pklCommandPaddingLength c ≤ pklCommandLength c ∧
      (pklCommandLength c = 0 ∨ REQ_data_offset ≤ pklCommandLength c) ∧
      (pklCommandLength c = 0 ∨ RPY_data_offset ≤ pklCommandLength c) := by
  decide

/-- Witness for C9 at opcode 0. -/
theorem c9_witness :
    permissions.length = N_REQUEST_TYPES ∧
    (pklCommandPaddingLength 0 ≤ MAX_PADDING_LENGTH ∧
      pklCommandPaddingLength 0 ≤ pklCommandLength 0 ∧
      (pklCommandLength 0 = 0 ∨ REQ_data_offset ≤ pklCommandLength 0) ∧
      (pklCommandLength 0 = 0 ∨ RPY_data_offset ≤ pklCommandLength 0)) :=
  ⟨c9_init_assertions.1, c9_init_assertions.2 0 (by decide)⟩

/-! ## Claim C10 -/

/-- A CMDACCHECK request from the filesystem socket, used by the C10
counterexample. -/
def msgC10 : CMD_Request :=
  { version := PROTO_VERSION_NUMBER, pkt_type := PKT_TYPE_CMD_REQUEST,
    command := REQ_CMDACCHECK, sequence := 13,
    data := { ac_check_ip := IPAddrV.v4 0x0a000001 } }

/-- Counterexample to C10 as stated: a CMDACCHECK request from the
filesystem socket is processed, but its reply reports the C/M table's
decision, so two table states produce different replies — processing is not
identical for any two states of the table. -/
theorem c10_counterexample :
    read_from_cmd_socket { env0 with adfAllowed := fun _ => true }
        Origin.unix 56 msgC10 ≠
      read_from_cmd_socket { env0 with adfAllowed := fun _ => false }
        Origin.unix 56 msgC10 := by
  decide

/-- The caix loop consults the C/M access table through no path, so its
result is unchanged when only `adfAllowed` changes. -/
theorem caix_loop_adf_independent (e : Env) (f g : IPAddrV → Bool)
    (now_sec first : Nat) (tx : CMD_Reply) :
    ∀ (n i j : Nat) (p : CAIXPage),
      caix_loop { e with adfAllowed := f } now_sec first tx p i j n =
        caix_loop { e with adfAllowed := g } now_sec first tx p i j n := by
  intro n
  induction n with
  | zero => intro i j p; rfl
  | succ k ih =>
    intro i j p
    unfold caix_loop
    rcases hc : e.clgGetClientAccessReportByIndex (first + i) now_sec with
      ⟨result, report, ntab⟩
    simp only [hc]
    cases result with
    | CLG_SUCCESS => exact ih (i + 1) (j + 1) _
    | CLG_INDEXTOOLARGE => exact ih (i + 1) j _
    | CLG_INACTIVE => rfl

/-- Every dispatch case except CMDACCHECK is independent of the C/M access
table. -/
theorem runHandler_adf_independent (e : Env) (f g : IPAddrV → Bool) (cmd : Nat)
    (rx : CMD_Request) (tx : CMD_Reply)
    (hcmd : cmd < N_REQUEST_TYPES)
    (hc : cmd ≠ REQ_CMDACCHECK) :
    runHandler { e with adfAllowed := f } cmd rx tx =
      runHandler { e with adfAllowed := g } cmd rx tx := by
  unfold N_REQUEST_TYPES at hcmd
  unfold REQ_CMDACCHECK at hc
  interval_cases cmd <;>
    first
      | rfl
      | exact absurd rfl hc
      | (simp only [runHandler, handle_client_accesses_by_index];
         exact congrArg some (caix_loop_adf_independent e f g _ _ _ _ _ _ _))

/-- C10 (amended): a packet whose origin is the IPv4 loopback, the IPv6
loopback, or the filesystem socket is never dropped by the C/M CIDR filter
— the filter passes it for every state of the table, even a deny-all table,
so a local administrator cannot lock themselves out; and for every opcode
except CMDACCHECK (whose reply deliberately reports the table's decision)
processing and the emitted reply are identical for any two states of the
table. -/
theorem c10_local_never_filtered (e : Env) (f g : IPAddrV → Bool)
    (origin : Origin) (read_length : Nat) (msg : CMD_Request)
    (hl : isLocalhost origin = true)
    (hc : msg.command ≠ REQ_CMDACCHECK) :
    read_from_cmd_socket { e with adfAllowed := f } origin read_length msg =
      read_from_cmd_socket { e with adfAllowed := g } origin read_length msg ∧
    ∀ e2 : Env, passesAccessFilter e2 origin = true := by
  refine ⟨?_, fun e2 => by unfold passesAccessFilter; simp [hl]⟩
  unfold read_from_cmd_socket
  simp only [hl, Bool.true_or]
  split_ifs <;>
    first
      | rfl
      | (have hcmd : msg.command < N_REQUEST_TYPES := by omega;
         rw [runHandler_adf_independent e f g msg.command msg (mkTemplate msg) hcmd hc])

/-- Witness for C10: a NULL request from the filesystem socket is processed
identically under an allow-all table and a deny-all table. -/
theorem c10_witness :
    read_from_cmd_socket { env0 with adfAllowed := fun _ => true }
        Origin.unix 36 msgC5 =
      read_from_cmd_socket { env0 with adfAllowed := fun _ => false }
        Origin.unix 36 msgC5 ∧
    ∀ e2 : Env, passesAccessFilter e2 Origin.unix = true :=
  c10_local_never_filtered env0 (fun _ => true) (fun _ => false) Origin.unix 36
    msgC5 (by decide) (by decide)

/-- Witness for C6: a zero-count CLIENT_ACCESSES_BY_INDEX request yields a
valid empty page. -/
theorem c6_witness :
    handle_client_accesses_by_index env0 msgC5 (mkTemplate msgC5) =
      { mkTemplate msgC5 with
          reply := RPY_CLIENT_ACCESSES_BY_INDEX,
          data := ReplyPayload.client_accesses_by_index
            { n_indices := none,
              next_index := some msgC5.data.client_accesses_by_index_first_index,
              n_clients := some 0, clients := [] } } :=
  c6_client_accesses_by_index.2.2.1 env0 msgC5 (mkTemplate msgC5) rfl

/-- Witness for C8 at a concrete request. -/
theorem c8_witness :
    handle_modify_maxpoll env0 msgC1 (mkTemplate msgC1) =
      (if env0.nsrModifyMaxpoll msgC1.modify_maxpoll_address
            msgC1.modify_maxpoll_new_maxpoll
       then mkTemplate msgC1
       else { mkTemplate msgC1 with status := STT_NOSUCHSOURCE }) ∧
    handle_modify_minstratum env0 msgC1 (mkTemplate msgC1) =
      (if env0.nsrModifyMinstratum msgC1.modify_minstratum_address
            msgC1.modify_minstratum_new_min_stratum
       then mkTemplate msgC1
       else { mkTemplate msgC1 with status := STT_NOSUCHSOURCE }) ∧
    (∀ r : CMD_Request,
      r.modify_maxpoll_address = r.modify_minpoll_address ∧
      r.modify_minstratum_address = r.modify_minpoll_address ∧
      r.modify_maxpoll_new_maxpoll = r.modify_minpoll_new_minpoll) :=
  c8_modify_targets_request_address env0 msgC1 (mkTemplate msgC1)
